import Mathlib

/-!
Verification of `generate_migration_tracker_excel.py` (msft-fabric-utils,
`fabric-region-migration/`), a single-file generator of a six-sheet Excel
workbook for tracking a Microsoft Fabric capacity migration.

The script is embedded shallowly: a workbook is a list of sheets, a sheet is a
grid of cells (value plus presentation attributes), and each Python function
(`style_header_row`, `style_data_rows`, `auto_width`, the six sheet builders
and `main`) becomes a Lean function over that state.  `openpyxl`'s
`ws.cell(row=r, column=c)` read/write access is modelled by `Sheet.cell` /
`Sheet.setCell` (1-indexed; a write to a not-yet-materialised cell pads the
grid with default cells, as openpyxl creates cells on access).  Python
`datetime.date` values are modelled by their proleptic-Gregorian ordinal
(`date.toordinal`), so `date + timedelta(weeks=w)` is ordinal addition of
`7*w` and `str(date)` is ISO formatting of the ordinal.  `date.today()` is
the parameter `today` threaded through `build_phases_sheet` and `main`.
-/

namespace MigrationTracker

/-- A Python cell value as appended by the script: a string, an int
(inventory "Suggested Wave" and checklist "Wave" cells), or a
`datetime.date` (phases sheet), identified by its ordinal day number. -/
inductive CellValue where
  | str (s : String)
  | int (n : Int)
  | date (ordinal : Nat)
deriving DecidableEq

/-- `openpyxl` `PatternFill(start_color=…, end_color=…, fill_type=…)`. -/
structure Fill where
  start_color : String
  end_color : String
  fill_type : String
deriving DecidableEq

/-- `openpyxl` `Font(bold=…, color=…, size=…)`. -/
structure FontT where
  bold : Bool
  color : String
  size : Nat
deriving DecidableEq

/-- `openpyxl` `Alignment(horizontal=…, vertical=…, wrap_text=…)`. -/
structure Align where
  horizontal : Option String
  vertical : Option String
  wrap_text : Bool
deriving DecidableEq

/-- `openpyxl` `Border(left=…, right=…, top=…, bottom=…)`, each side a style
name such as `"thin"`. -/
structure Border4 where
  left : Option String
  right : Option String
  top : Option String
  bottom : Option String
deriving DecidableEq

/-- One worksheet cell: its value and the presentation attributes the script
assigns.  A fresh (never-assigned) cell has value `none` and no styling. -/
structure Cell where
  value : Option CellValue
  fill : Option Fill
  font : Option FontT
  alignment : Option Align
  border : Option Border4
deriving DecidableEq

/-- The state of a cell that has never been written. -/
def defaultCell : Cell :=
  { value := none, fill := none, font := none, alignment := none, border := none }

/-- A worksheet: title, the cell grid (row-major, row 1 first), assigned
column widths (`column_dimensions`), assigned row heights (`row_dimensions`),
`auto_filter.ref` and `freeze_panes`. -/
structure Sheet where
  title : String
  rows : List (List Cell)
  widths : List (Nat × Nat)
  rowHeights : List (Nat × Nat)
  autoFilter : Option String
  freezePanes : Option String
deriving DecidableEq

/-- A fresh worksheet, as returned by `wb.create_sheet(title)`. -/
def Sheet.empty (title : String) : Sheet :=
  { title := title, rows := [], widths := [], rowHeights := [],
    autoFilter := none, freezePanes := none }

/-- A workbook is its ordered list of worksheets. -/
structure Workbook where
  sheets : List Sheet
deriving DecidableEq

/-- `Workbook()`: a new workbook holding the single default sheet `"Sheet"`,
which is the active sheet. -/
def Workbook.blank : Workbook := ⟨[Sheet.empty "Sheet"]⟩

/-- Python `range(a, b)`. -/
def rangeFrom (a b : Nat) : List Nat := (List.range (b - a)).map (· + a)

/-- 0-indexed cell access into the grid; positions outside the grid read as
`defaultCell` (openpyxl materialises cells on access, with no value). -/
def Sheet.getIdx (s : Sheet) (i j : Nat) : Cell :=
  (s.rows.getD i []).getD j defaultCell

/-- `ws.cell(row=r, column=c)` as a read (1-indexed). -/
def Sheet.cell (s : Sheet) (r c : Nat) : Cell := s.getIdx (r - 1) (c - 1)

/-- The value of cell `(r, c)` (1-indexed). -/
def Sheet.vAt (s : Sheet) (r c : Nat) : Option CellValue := (s.cell r c).value

/-- `ws.max_row`: with the script's append-then-style-in-range usage this is
the number of appended rows. -/
def Sheet.maxRow (s : Sheet) : Nat := s.rows.length

/-- Attribute assignment through `ws.cell(row=r, column=c)` (1-indexed):
the grid is padded with default cells up to `(r, c)` if needed, then `f` is
applied to the cell at `(r, c)`. -/
def Sheet.setCell (s : Sheet) (r c : Nat) (f : Cell → Cell) : Sheet :=
  let rows := s.rows ++ List.replicate (r - s.rows.length) ([] : List Cell)
  let row := rows.getD (r - 1) []
  let row2 := row ++ List.replicate (c - row.length) defaultCell
  let row3 := row2.set (c - 1) (f (row2.getD (c - 1) defaultCell))
  { s with rows := rows.set (r - 1) row3 }

/-- `ws.append(values)`: a new last row whose cells hold the given values
and no styling. -/
def Sheet.appendRow (s : Sheet) (vals : List CellValue) : Sheet :=
  { s with rows := s.rows ++ [vals.map fun v => { defaultCell with value := some v }] }

/-- `ws.column_dimensions[get_column_letter(c)].width = w` (keyed by column
index). -/
def Sheet.setWidth (s : Sheet) (c w : Nat) : Sheet :=
  { s with widths := (c, w) :: s.widths.filter (fun p => p.1 != c) }

/-- The width assigned to column `c`, if any. -/
def Sheet.getWidth (s : Sheet) (c : Nat) : Option Nat :=
  (s.widths.find? (fun p => p.1 == c)).map Prod.snd

/-- `ws.row_dimensions[r].height = h`. -/
def Sheet.setRowHeight (s : Sheet) (r h : Nat) : Sheet :=
  { s with rowHeights := (r, h) :: s.rowHeights.filter (fun p => p.1 != r) }

/-- `ws.title = t`. -/
def Sheet.setTitle (s : Sheet) (t : String) : Sheet := { s with title := t }

/-- `ws.auto_filter.ref = ref`. -/
def Sheet.setFilter (s : Sheet) (ref : String) : Sheet := { s with autoFilter := some ref }

/-- `ws.freeze_panes = p`. -/
def Sheet.setFreeze (s : Sheet) (p : String) : Sheet := { s with freezePanes := some p }

/-- Mutation of `wb.active` (the first sheet). -/
def Workbook.modifyActive (wb : Workbook) (f : Sheet → Sheet) : Workbook :=
  match wb.sheets with
  | [] => wb
  | s :: rest => ⟨f s :: rest⟩

/-- `wb.create_sheet(title)` followed by the builder's mutations `f` of the
fresh sheet. -/
def Workbook.createSheet (wb : Workbook) (title : String) (f : Sheet → Sheet) : Workbook :=
  ⟨wb.sheets ++ [f (Sheet.empty title)]⟩

/-- Helper for `get_column_letter`: bijective base-26 digits, most
significant first (fuel-driven; `fuel ≥ n` suffices). -/
def colLetterGo : Nat → Nat → List Char → List Char
  | 0, _, acc => acc
  | _, 0, acc => acc
  | fuel + 1, n, acc =>
      colLetterGo fuel ((n - 1) / 26) (Char.ofNat (65 + (n - 1) % 26) :: acc)

/-- `openpyxl.utils.get_column_letter`: 1 ↦ "A", …, 27 ↦ "AA". -/
def get_column_letter (n : Nat) : String := ⟨colLetterGo n n []⟩

/-- Left zero-padding to two digits, Python `"%02d"`. -/
def pad2 (n : Nat) : String :=
  if n < 10 then "0" ++ toString n else toString n

/-- Left zero-padding to four digits, Python `"%04d"`. -/
def pad4 (n : Nat) : String :=
  if n < 10 then "000" ++ toString n
  else if n < 100 then "00" ++ toString n
  else if n < 1000 then "0" ++ toString n
  else toString n

/-- Proleptic-Gregorian ordinal (as in `date.toordinal`, with
ordinal 1 = 0001-01-01) to (year, month, day), by the standard
era/day-of-era civil-calendar computation. -/
def civilFromOrdinal (ord : Nat) : Nat × Nat × Nat :=
  let z := ord + 305        -- days since 0000-03-01
  let era := z / 146097
  let doe := z % 146097
  let yoe := (doe - doe / 1460 + doe / 36524 - doe / 146096) / 365
  let y := yoe + era * 400
  let doy := doe - (365 * yoe + yoe / 4 - yoe / 100)
  let mp := (5 * doy + 2) / 153
  let d := doy - (153 * mp + 2) / 5 + 1
  let m := if mp < 10 then mp + 3 else mp - 9
  (if m ≤ 2 then y + 1 else y, m, d)

/-- Python `str(d)` for a `datetime.date`: ISO format `YYYY-MM-DD`. -/
def dateToStr (ord : Nat) : String :=
  let c := civilFromOrdinal ord
  pad4 c.1 ++ "-" ++ pad2 c.2.1 ++ "-" ++ pad2 c.2.2

/-- Python `str(value or "")` applied to a cell's value: `None` and the
falsy values `""` and `0` become `""`; otherwise `str(value)`. -/
def pyStr (v : Option CellValue) : String :=
  match v with
  | none => ""
  | some (.str s) => s
  | some (.int n) => if n = 0 then "" else toString n
  | some (.date d) => dateToStr d

-- ── Style constants ─────────────────────────────────────────────────────────

def HEADER_FILL : Fill := ⟨"1F4E79", "1F4E79", "solid"⟩
def HEADER_FONT : FontT := ⟨true, "FFFFFF", 11⟩
def ALT_ROW_FILL : Fill := ⟨"D6E4F0", "D6E4F0", "solid"⟩
def BORDER_THIN : Border4 := ⟨some "thin", some "thin", some "thin", some "thin"⟩
def WRAP_ALIGN : Align := ⟨none, some "top", true⟩

/-- `Alignment(horizontal="center", vertical="center", wrap_text=True)`. -/
def CENTER_WRAP : Align := ⟨some "center", some "center", true⟩

/-- `Alignment(horizontal="center", vertical="center")`. -/
def CENTER_ALIGN : Align := ⟨some "center", some "center", false⟩

-- ── Styling helpers (from the source) ───────────────────────────────────────

/-- `style_header_row(ws, num_cols)`: header fill, font, centered wrapped
alignment and thin border on row 1, columns 1..num_cols; row 1 height 30. -/
def style_header_row (ws : Sheet) (num_cols : Nat) : Sheet :=
  let ws := (rangeFrom 1 (num_cols + 1)).foldl (fun s col =>
    s.setCell 1 col fun cl =>
      { cl with fill := some HEADER_FILL, font := some HEADER_FONT,
                alignment := some CENTER_WRAP, border := some BORDER_THIN }) ws
  ws.setRowHeight 1 30

/-- `style_data_rows(ws, start_row, end_row, num_cols, alternate=True)`:
thin border and wrap alignment on every cell in the range; light fill on
every other row (odd offset from `start_row`) when `alternate`. -/
def style_data_rows (ws : Sheet) (start_row end_row num_cols : Nat)
    (alternate : Bool := true) : Sheet :=
  (rangeFrom start_row (end_row + 1)).foldl (fun s r =>
    let s := (rangeFrom 1 (num_cols + 1)).foldl (fun s c =>
      s.setCell r c fun cl =>
        { cl with border := some BORDER_THIN, alignment := some WRAP_ALIGN }) s
    if alternate && ((r - start_row) % 2 == 1) then
      (rangeFrom 1 (num_cols + 1)).foldl (fun s c =>
        s.setCell r c fun cl => { cl with fill := some ALT_ROW_FILL }) s
    else s) ws

/-- `auto_width(ws, num_cols, min_width=12, max_width=50)`: for each column,
width = `min(max(max([header_len] + content_lens) + 4, min_width), max_width)`
where lengths are `len(str(cell.value or ""))` over row 1 (header) and rows
2..max_row (contents). -/
def auto_width (ws : Sheet) (num_cols : Nat)
    (min_width : Nat := 12) (max_width : Nat := 50) : Sheet :=
  (rangeFrom 1 (num_cols + 1)).foldl (fun s col =>
    let header_len := (pyStr (s.cell 1 col).value).length
    let content_lens := (rangeFrom 2 (s.maxRow + 1)).map
      (fun r => (pyStr (s.cell r col).value).length)
    let best := content_lens.foldl Nat.max header_len + 4
    s.setWidth col (min (max best min_width) max_width)) ws

-- ── Sheet 1: Migration Inventory ────────────────────────────────────────────

def inventoryHeaders : List String :=
  ["Workspace Name", "Capacity Name", "SKU", "Source Region",
   "Target Region", "Item Name", "Item Type",
   "Movable?", "Migration Complexity", "Suggested Wave",
   "Business Owner", "Data Size (GB)", "External Dependencies",
   "Notes"]

def inventoryExamples : List (List CellValue) :=
  [[.str "Sales Workspace", .str "FabCap-WestUS-01", .str "F64", .str "West US",
    .str "East US 2", .str "Sales Report", .str "Report",
    .str "✅ Yes", .str "Low", .int 1, .str "Jane Smith", .str "", .str "", .str ""],
   [.str "ETL Workspace", .str "FabCap-WestUS-01", .str "F64", .str "West US",
    .str "East US 2", .str "Ingest Pipeline", .str "DataPipeline",
    .str "❌ No", .str "High", .int 3, .str "Bob Jones", .str "~500",
    .str "Databricks (East US 2)", .str "Must re-create after reassignment"]]

/-- First half of `build_inventory_sheet`: retitle the active sheet, append
the header row, the two example rows and 20 blank rows. -/
def inventoryFilled (ws0 : Sheet) : Sheet :=
  let ws := ws0.setTitle "Migration Inventory"
  let ws := ws.appendRow (inventoryHeaders.map CellValue.str)
  let ws := inventoryExamples.foldl Sheet.appendRow ws
  (List.range 20).foldl
    (fun s _ => s.appendRow (List.replicate inventoryHeaders.length (.str ""))) ws

/-- Second half of `build_inventory_sheet`: style, auto-size, filter,
freeze. -/
def inventoryBuilt (ws0 : Sheet) : Sheet :=
  let ws := inventoryFilled ws0
  let ws := style_header_row ws inventoryHeaders.length
  let ws := style_data_rows ws 2 ws.maxRow inventoryHeaders.length
  let ws := auto_width ws inventoryHeaders.length
  let ws := ws.setFilter
    ("A1:" ++ get_column_letter inventoryHeaders.length ++ toString ws.maxRow)
  ws.setFreeze "A2"

/-- `build_inventory_sheet(wb)` operates on `wb.active`. -/
def build_inventory_sheet (wb : Workbook) : Workbook :=
  wb.modifyActive inventoryBuilt

-- ── Sheet 2: Migration Phases ───────────────────────────────────────────────

def phasesHeaders : List String :=
  ["Phase", "Phase Name", "Key Milestone", "Owner",
   "Planned Start", "Planned End", "Actual Start", "Actual End",
   "Status", "% Complete", "Dependencies", "Notes"]

/-- The `phases` list of `build_phases_sheet`, with `today + timedelta(weeks=w)`
rendered as ordinal `today + 7*w`. -/
def phasesData (today : Nat) : List (List CellValue) :=
  [[.str "Phase 0", .str "Discovery & Inventory",
    .str "Complete inventory & get business sign-off",
    .str "", .date today, .date (today + 7 * 2), .str "", .str "",
    .str "Not Started", .str "0%",
    .str "Admin API access", .str "Run migration-inventory notebook"],
   [.str "Phase 1", .str "Target Capacity Setup",
    .str "New capacity provisioned & validated in East US 2",
    .str "", .date (today + 7 * 2), .date (today + 7 * 3), .str "", .str "",
    .str "Not Started", .str "0%",
    .str "Azure subscription, budget approval",
    .str "Match SKU to source; configure networking"],
   [.str "Phase 2", .str "Wave 1 – Low Complexity",
    .str "All movable-only workspaces migrated & validated",
    .str "", .date (today + 7 * 3), .date (today + 7 * 5), .str "", .str "",
    .str "Not Started", .str "0%",
    .str "Phase 1 complete",
    .str "Reports, Dashboards, Semantic models"],
   [.str "Phase 3", .str "Wave 2 – Medium Complexity",
    .str "Lakehouses / Warehouses migrated with data copy",
    .str "", .date (today + 7 * 5), .date (today + 7 * 8), .str "", .str "",
    .str "Not Started", .str "0%",
    .str "Phase 2 complete, data copy tooling ready",
    .str "Use AzCopy / Copy Job for data transfer"],
   [.str "Phase 4", .str "Wave 3 – High Complexity",
    .str "Notebooks, Pipelines, Eventhouses recreated & validated",
    .str "", .date (today + 7 * 8), .date (today + 7 * 12), .str "", .str "",
    .str "Not Started", .str "0%",
    .str "Phase 3 complete, Git integration",
    .str "Pipeline re-creation; end-to-end testing"],
   [.str "Phase 5", .str "Validation, Cutover & Decommission",
    .str "Business sign-off, source decommissioned",
    .str "", .date (today + 7 * 12), .date (today + 7 * 14), .str "", .str "",
    .str "Not Started", .str "0%",
    .str "All phases complete",
    .str "Parallel run → cutover → decom"]]

/-- The Status-column centering loop at the end of `build_phases_sheet`
(column 9, rows 2..max_row). -/
def centerStatusColumn (ws : Sheet) : Sheet :=
  (rangeFrom 2 (ws.maxRow + 1)).foldl (fun s r =>
    s.setCell r 9 fun cl => { cl with alignment := some CENTER_ALIGN }) ws

/-- First half of `build_phases_sheet`: header row plus the six phase
rows. -/
def phasesFilled (today : Nat) (ws0 : Sheet) : Sheet :=
  let ws := ws0.appendRow (phasesHeaders.map CellValue.str)
  (phasesData today).foldl Sheet.appendRow ws

/-- Second half of `build_phases_sheet`: style, auto-size, freeze, center
the Status column. -/
def phasesBuilt (today : Nat) (ws0 : Sheet) : Sheet :=
  let ws := phasesFilled today ws0
  let ws := style_header_row ws phasesHeaders.length
  let ws := style_data_rows ws 2 ws.maxRow phasesHeaders.length
  let ws := auto_width ws phasesHeaders.length
  let ws := ws.setFreeze "A2"
  centerStatusColumn ws

/-- `build_phases_sheet(wb)` with `date.today()` passed in as `today`. -/
def build_phases_sheet (wb : Workbook) (today : Nat) : Workbook :=
  wb.createSheet "Migration Phases" (phasesBuilt today)

-- ── Sheet 3: Risk Register ──────────────────────────────────────────────────

def riskHeaders : List String :=
  ["Risk ID", "Risk Description", "Category",
   "Likelihood (L/M/H)", "Impact (L/M/H)", "Risk Level",
   "Mitigation Strategy", "Risk Owner", "Status", "Notes"]

def riskRows : List (List CellValue) :=
  [[.str "R-001",
    .str "Non-movable items block workspace reassignment",
    .str "Technical", .str "High", .str "High", .str "Critical",
    .str "Pre-inventory all items; remove non-movable items before reassignment",
    .str "", .str "Open", .str "Use inventory notebook to classify items"],
   [.str "R-002",
    .str "Dataflow Gen2 staging lakehouses block migration",
    .str "Technical", .str "Medium", .str "High", .str "High",
    .str "Delete all Dataflow Gen2 items first, then delete staging lakehouses",
    .str "", .str "Open", .str "MS Learn: staging items only visible after DFGen2 deletion"],
   [.str "R-003",
    .str "Admin API rate limits (200 req/hr) slow discovery",
    .str "Technical", .str "Medium", .str "Low", .str "Medium",
    .str "Implement retry/backoff (already built into notebook helper)",
    .str "", .str "Mitigated", .str "fabric_api_get() handles 429s automatically"],
   [.str "R-004",
    .str "Large-storage-format semantic models cannot cross regions",
    .str "Technical", .str "Medium", .str "High", .str "High",
    .str "Identify large-storage models early; switch to small storage or recreate",
    .str "", .str "Open", .str "Check semantic model storage format before migration"],
   [.str "R-005",
    .str "Data loss during Lakehouse/Warehouse migration",
    .str "Data", .str "Low", .str "Critical", .str "High",
    .str "Full backup before migration; validate row counts and checksums post-copy",
    .str "", .str "Open", .str "Use parallel copy + validation queries"],
   [.str "R-006",
    .str "Running jobs cancelled during workspace reassignment",
    .str "Operational", .str "High", .str "Medium", .str "High",
    .str "Schedule migration during maintenance windows; notify users in advance",
    .str "", .str "Open", .str "MS Learn: reassignment cancels all running jobs"],
   [.str "R-007",
    .str "Business disruption during migration window",
    .str "Business", .str "Medium", .str "High", .str "High",
    .str "Phased approach with parallel run; communicate schedule to stakeholders",
    .str "", .str "Open", .str "Wave-based migration reduces blast radius"],
   [.str "R-008",
    .str "External dependencies not updated (Databricks, gateways)",
    .str "Integration", .str "Medium", .str "High", .str "High",
    .str "Document all external deps in inventory; update connection strings post-migration",
    .str "", .str "Open", .str "Databricks already in East US 2 – update Fabric endpoints only"],
   [.str "R-009",
    .str "Private Link / VNet configuration breaks after migration",
    .str "Networking", .str "Medium", .str "High", .str "High",
    .str "Disable Private Link before migration; reconfigure in target region after",
    .str "", .str "Open", .str "MS Learn: Private Link must be temporarily disabled"],
   [.str "R-010",
    .str "Insufficient capacity SKU in target region",
    .str "Planning", .str "Low", .str "High", .str "Medium",
    .str "Verify target region SKU availability; request quota increase if needed",
    .str "", .str "Open", .str "Check Azure capacity quotas before Phase 1"]]

/-- First half of `build_risk_register`: header row, ten seed risks, ten
blank rows. -/
def riskFilled (ws0 : Sheet) : Sheet :=
  let ws := ws0.appendRow (riskHeaders.map CellValue.str)
  let ws := riskRows.foldl Sheet.appendRow ws
  (List.range 10).foldl
    (fun s _ => s.appendRow (List.replicate riskHeaders.length (.str ""))) ws

/-- Second half of `build_risk_register`: style, auto-size, filter,
freeze. -/
def riskBuilt (ws0 : Sheet) : Sheet :=
  let ws := riskFilled ws0
  let ws := style_header_row ws riskHeaders.length
  let ws := style_data_rows ws 2 ws.maxRow riskHeaders.length
  let ws := auto_width ws riskHeaders.length
  let ws := ws.setFilter
    ("A1:" ++ get_column_letter riskHeaders.length ++ toString ws.maxRow)
  ws.setFreeze "A2"

/-- `build_risk_register(wb)`. -/
def build_risk_register (wb : Workbook) : Workbook :=
  wb.createSheet "Risk Register" riskBuilt

-- ── Sheet 4: RACI Matrix ────────────────────────────────────────────────────

def raciHeaders : List String :=
  ["Task / Activity",
   "Fabric Admin", "Cloud Platform Team", "Data Engineering",
   "BI / Analytics", "Business Owner", "Security / Networking",
   "Project Manager"]

def raciTasks : List (List CellValue) :=
  [[.str "Run inventory notebook", .str "R/A", .str "I", .str "C",
    .str "I", .str "I", .str "I", .str "I"],
   [.str "Provision target Fabric capacity", .str "R", .str "A", .str "I",
    .str "I", .str "I", .str "C", .str "I"],
   [.str "Configure networking (VNet/PE)", .str "C", .str "R/A", .str "I",
    .str "I", .str "I", .str "R", .str "I"],
   [.str "Backup lakehouse/warehouse data", .str "C", .str "I", .str "R/A",
    .str "I", .str "I", .str "I", .str "I"],
   [.str "Migrate Wave 1 workspaces (movable)", .str "R/A", .str "I", .str "I",
    .str "C", .str "I", .str "I", .str "I"],
   [.str "Copy data to target lakehouses", .str "C", .str "I", .str "R/A",
    .str "I", .str "I", .str "I", .str "I"],
   [.str "Remove non-movable items from source", .str "R/A", .str "I", .str "C",
    .str "C", .str "I", .str "I", .str "I"],
   [.str "Reassign workspaces to target capacity", .str "R/A", .str "I", .str "I",
    .str "I", .str "I", .str "I", .str "I"],
   [.str "Recreate pipelines & notebooks", .str "C", .str "I", .str "R/A",
    .str "I", .str "I", .str "I", .str "I"],
   [.str "Recreate eventhouses & KQL databases", .str "C", .str "I", .str "R/A",
    .str "I", .str "I", .str "I", .str "I"],
   [.str "Validate reports & dashboards", .str "I", .str "I", .str "I",
    .str "R/A", .str "C", .str "I", .str "I"],
   [.str "Validate data pipelines end-to-end", .str "I", .str "I", .str "R/A",
    .str "C", .str "C", .str "I", .str "I"],
   [.str "Update Databricks connections", .str "I", .str "I", .str "R/A",
    .str "I", .str "I", .str "I", .str "I"],
   [.str "Business sign-off per wave", .str "I", .str "I", .str "I",
    .str "C", .str "R/A", .str "I", .str "I"],
   [.str "Decommission source capacities", .str "R", .str "A", .str "I",
    .str "I", .str "I", .str "C", .str "I"],
   [.str "Update private endpoints / DNS", .str "C", .str "R", .str "I",
    .str "I", .str "I", .str "R/A", .str "I"],
   [.str "Overall project coordination", .str "C", .str "C", .str "C",
    .str "C", .str "C", .str "C", .str "R/A"]]

/-- The `raci_fills` mapping: RACI code → fill color. -/
def raci_fills : List (String × Fill) :=
  [("R", ⟨"C6EFCE", "C6EFCE", "solid"⟩),
   ("A", ⟨"BDD7EE", "BDD7EE", "solid"⟩),
   ("R/A", ⟨"92D050", "92D050", "solid"⟩),
   ("C", ⟨"FFE699", "FFE699", "solid"⟩),
   ("I", ⟨"F2F2F2", "F2F2F2", "solid"⟩)]

/-- Python `val in raci_fills` / `raci_fills[val]` on the dict above. -/
def raciLookup (val : String) : Option Fill :=
  (raci_fills.find? (fun p => p.1 == val)).map Prod.snd

/-- The color-coding loop at the end of `build_raci_matrix`: for rows
2..max_row and columns 2..8, the trimmed string of the cell value is looked
up in `raci_fills`; on a hit the mapped fill and center alignment are
assigned, otherwise the cell is left alone. -/
def colorRaciCells (ws : Sheet) : Sheet :=
  (rangeFrom 2 (ws.maxRow + 1)).foldl (fun s r =>
    (rangeFrom 2 (raciHeaders.length + 1)).foldl (fun s c =>
      let val := (pyStr (s.cell r c).value).trim
      match raciLookup val with
      | some fl => s.setCell r c fun cl =>
          { cl with fill := some fl, alignment := some CENTER_ALIGN }
      | none => s) s) ws

/-- First half of `build_raci_matrix`: header row plus the 17 task rows. -/
def raciFilled (ws0 : Sheet) : Sheet :=
  let ws := ws0.appendRow (raciHeaders.map CellValue.str)
  raciTasks.foldl Sheet.appendRow ws

/-- Second half of `build_raci_matrix`: style, auto-size, freeze, color the
RACI cells. -/
def raciBuilt (ws0 : Sheet) : Sheet :=
  let ws := raciFilled ws0
  let ws := style_header_row ws raciHeaders.length
  let ws := style_data_rows ws 2 ws.maxRow raciHeaders.length
  let ws := auto_width ws raciHeaders.length
  let ws := ws.setFreeze "B2"
  colorRaciCells ws

/-- `build_raci_matrix(wb)`. -/
def build_raci_matrix (wb : Workbook) : Workbook :=
  wb.createSheet "RACI Matrix" raciBuilt

-- ── Sheet 5: Issue Tracker ──────────────────────────────────────────────────

def issueHeaders : List String :=
  ["Issue ID", "Date Raised", "Workspace / Item",
   "Issue Description", "Severity (P1/P2/P3/P4)",
   "Assigned To", "Status", "Resolution", "Date Resolved", "Notes"]

def issueExample : List CellValue :=
  [.str "ISS-001", .str "", .str "Example Workspace / Lakehouse",
   .str "(Example) Data mismatch after copy – row count differs by 5",
   .str "P2", .str "", .str "Open", .str "", .str "", .str ""]

/-- First half of `build_issue_tracker`: header row, the example issue, 30
blank rows. -/
def issueFilled (ws0 : Sheet) : Sheet :=
  let ws := ws0.appendRow (issueHeaders.map CellValue.str)
  let ws := ws.appendRow issueExample
  (List.range 30).foldl
    (fun s _ => s.appendRow (List.replicate issueHeaders.length (.str ""))) ws

/-- Second half of `build_issue_tracker`: style, auto-size, filter,
freeze. -/
def issueBuilt (ws0 : Sheet) : Sheet :=
  let ws := issueFilled ws0
  let ws := style_header_row ws issueHeaders.length
  let ws := style_data_rows ws 2 ws.maxRow issueHeaders.length
  let ws := auto_width ws issueHeaders.length
  let ws := ws.setFilter
    ("A1:" ++ get_column_letter issueHeaders.length ++ toString ws.maxRow)
  ws.setFreeze "A2"

/-- `build_issue_tracker(wb)`. -/
def build_issue_tracker (wb : Workbook) : Workbook :=
  wb.createSheet "Issue Tracker" issueBuilt

-- ── Sheet 6: Validation Checklist ───────────────────────────────────────────

def checklistHeaders : List String :=
  ["Wave", "Workspace Name", "Validation Step",
   "Expected Result", "Actual Result",
   "Pass/Fail", "Validated By", "Date", "Notes"]

def checklistRows : List (List CellValue) :=
  [[.int 1, .str "(Wave 1 workspace)", .str "Reports render correctly",
    .str "All visuals load without error", .str "", .str "", .str "", .str "", .str ""],
   [.int 1, .str "(Wave 1 workspace)", .str "Semantic model refresh succeeds",
    .str "Refresh completes < 2x baseline duration", .str "", .str "", .str "", .str "", .str ""],
   [.int 1, .str "(Wave 1 workspace)", .str "Dashboard tiles load",
    .str "All tiles display data", .str "", .str "", .str "", .str "", .str ""],
   [.int 1, .str "(Wave 1 workspace)", .str "Data gateway connectivity",
    .str "On-prem data sources accessible", .str "", .str "", .str "", .str "", .str ""],
   [.int 2, .str "(Wave 2 workspace)", .str "Lakehouse row counts match source",
    .str "Row count delta = 0", .str "", .str "", .str "", .str "", .str ""],
   [.int 2, .str "(Wave 2 workspace)", .str "Warehouse query results match",
    .str "Checksum/hash comparison passes", .str "", .str "", .str "", .str "", .str ""],
   [.int 2, .str "(Wave 2 workspace)", .str "SQL endpoint accessible",
    .str "Queries execute successfully", .str "", .str "", .str "", .str "", .str ""],
   [.int 2, .str "(Wave 2 workspace)", .str "Semantic models connect to new lakehouse",
    .str "No connection errors", .str "", .str "", .str "", .str "", .str ""],
   [.int 3, .str "(Wave 3 workspace)", .str "Notebooks execute without error",
    .str "All cells pass", .str "", .str "", .str "", .str "", .str ""],
   [.int 3, .str "(Wave 3 workspace)", .str "Data pipelines run end-to-end",
    .str "Pipeline succeeds with expected output", .str "", .str "", .str "", .str "", .str ""],
   [.int 3, .str "(Wave 3 workspace)", .str "Eventhouse ingestion active",
    .str "Events streaming into KQL database", .str "", .str "", .str "", .str "", .str ""],
   [.int 3, .str "(Wave 3 workspace)", .str "Spark jobs complete on schedule",
    .str "Job duration within 2x baseline", .str "", .str "", .str "", .str "", .str ""],
   [.int 3, .str "(Wave 3 workspace)", .str "Databricks connections functional",
    .str "Fabric pipeline invokes Databricks successfully", .str "", .str "", .str "", .str "", .str ""],
   [.str "All", .str "ALL", .str "Capacity utilization within thresholds",
    .str "CU% < 80% sustained", .str "", .str "", .str "", .str "", .str ""],
   [.str "All", .str "ALL", .str "No orphaned items in source region",
    .str "Source capacity empty", .str "", .str "", .str "", .str "", .str ""]]

/-- First half of `build_validation_checklist`: header row, 15 seed rows,
15 blank rows. -/
def checklistFilled (ws0 : Sheet) : Sheet :=
  let ws := ws0.appendRow (checklistHeaders.map CellValue.str)
  let ws := checklistRows.foldl Sheet.appendRow ws
  (List.range 15).foldl
    (fun s _ => s.appendRow (List.replicate checklistHeaders.length (.str ""))) ws

/-- Second half of `build_validation_checklist`: style, auto-size, filter,
freeze. -/
def checklistBuilt (ws0 : Sheet) : Sheet :=
  let ws := checklistFilled ws0
  let ws := style_header_row ws checklistHeaders.length
  let ws := style_data_rows ws 2 ws.maxRow checklistHeaders.length
  let ws := auto_width ws checklistHeaders.length
  let ws := ws.setFilter
    ("A1:" ++ get_column_letter checklistHeaders.length ++ toString ws.maxRow)
  ws.setFreeze "A2"

/-- `build_validation_checklist(wb)`. -/
def build_validation_checklist (wb : Workbook) : Workbook :=
  wb.createSheet "Validation Checklist" checklistBuilt

-- ── Main ────────────────────────────────────────────────────────────────────

/-- `main()`: build the six sheets in order on a fresh workbook.
`date.today()` is the parameter `today` (as an ordinal day). -/
def main (today : Nat) : Workbook :=
  let wb := Workbook.blank
  let wb := build_inventory_sheet wb
  let wb := build_phases_sheet wb today
  let wb := build_risk_register wb
  let wb := build_raci_matrix wb
  let wb := build_issue_tracker wb
  build_validation_checklist wb

-- ── Spec-side helper definitions ────────────────────────────────────────────

/-- The fixed week offsets of the phase plan. -/
def phaseWeekOffsets : List Nat := [0, 2, 3, 5, 8, 12, 14]

/-- Ordering of two date cells (Python dates compare by ordinal). -/
def cvDateLE : Option CellValue → Option CellValue → Prop
  | some (.date a), some (.date b) => a ≤ b
  | _, _ => False

/-- One step of the RACI color-coding loop, at row `r`, column `c`: look up
the trimmed cell text; on a hit assign the mapped fill and center the cell,
otherwise do nothing. -/
def raciStep (s : Sheet) (r c : Nat) : Sheet :=
  match raciLookup ((pyStr (s.cell r c).value).trim) with
  | some fl => s.setCell r c fun cl =>
      { cl with fill := some fl, alignment := some CENTER_ALIGN }
  | none => s

/-- The claimed best-fit measure of a column: `max(header length, longest
cell text over the data rows) + 4`, read off a sheet's current contents. -/
def colBest (s : Sheet) (col : Nat) : Nat :=
  Nat.max ((pyStr (s.cell 1 col).value).length)
    (((rangeFrom 2 (s.maxRow + 1)).map
      (fun r => (pyStr (s.cell r col).value).length)).foldl Nat.max 0) + 4

/-- A two-row one-column sheet used to witness the `auto_width` formula. -/
def wsSmall : Sheet :=
  ((Sheet.empty "w").appendRow [CellValue.str "ab"]).appendRow [CellValue.str "xyzzy"]

/-- A sheet whose single column is blank in its data row but whose header
is longer than 46 characters, so `header length + 4` exceeds the upper
clamp 50. -/
def wsAllBlankLongHeader : Sheet :=
  ((Sheet.empty "w").appendRow
    [CellValue.str "a certainly much longer than forty six chars header"]).appendRow
    [CellValue.str ""]

/-- A two-row one-column sheet with a short header and a blank data
cell. -/
def wsBlankCol : Sheet :=
  ((Sheet.empty "w").appendRow [CellValue.str "hdr"]).appendRow [CellValue.str ""]

/-- A two-row two-column sheet whose data cell (2,2) holds a padded RACI
code. -/
def wsRaci : Sheet :=
  ((Sheet.empty "w").appendRow [CellValue.str "T", CellValue.str "x"]).appendRow
    [CellValue.str "task", CellValue.str " R "]

-- ── List helpers ────────────────────────────────────────────────────────────

theorem getD_append_replicate {α} (l : List α) (m i : Nat) (d : α) :
    (l ++ List.replicate m d).getD i d = l.getD i d := by
  simp only [List.getD_eq_getElem?_getD, List.getElem?_append, List.getElem?_replicate]
  rcases Nat.lt_or_ge i l.length with h | h
  · simp [h]
  · rw [if_neg (Nat.not_lt.mpr h), List.getElem?_eq_none h]
    split <;> rfl

theorem getD_set_ne {α} (l : List α) (i j : Nat) (v d : α) (h : i ≠ j) :
    (l.set i v).getD j d = l.getD j d := by
  simp only [List.getD_eq_getElem?_getD, List.getElem?_set_ne h]

theorem getD_set_self {α} (l : List α) (i : Nat) (v d : α) (h : i < l.length) :
    (l.set i v).getD i d = v := by
  simp only [List.getD_eq_getElem?_getD, List.getElem?_set_self h, Option.getD_some]

theorem getD_map_length (l : List (List Cell)) (i : Nat) :
    (l.map List.length).getD i 0 = (l.getD i []).length := by
  simp only [List.getD_eq_getElem?_getD, List.getElem?_map]
  cases l[i]? <;> rfl

theorem set_getD_self {α} (l : List α) (i : Nat) (d : α) :
    l.set i (l.getD i d) = l := by
  induction l generalizing i with
  | nil => rfl
  | cons a l ih =>
    cases i with
    | zero => simp [List.getD]
    | succ i => simp only [List.set, List.getD_cons_succ]; rw [ih]

theorem foldl_max_init (l : List Nat) (a : Nat) :
    l.foldl Nat.max a = Nat.max a (l.foldl Nat.max 0) := by
  induction l generalizing a with
  | nil => simp
  | cons b l ih =>
    rw [List.foldl_cons, List.foldl_cons, ih, ih (Nat.max 0 b)]
    simp [Nat.max_assoc, Nat.zero_max]

theorem find?_filter_of_imp {α} (l : List α) (p q : α → Bool)
    (h : ∀ x, p x = true → q x = true) :
    (l.filter q).find? p = l.find? p := by
  induction l with
  | nil => rfl
  | cons a l ih =>
    by_cases hq : q a
    · rw [List.filter_cons_of_pos hq, List.find?_cons, List.find?_cons]
      cases hp : p a <;> simp [hp, ih]
    · rw [List.filter_cons_of_neg hq, List.find?_cons]
      cases hp : p a
      · simp [ih]
      · exact absurd (h a hp) hq

theorem mem_rangeFrom {x a b : Nat} : x ∈ rangeFrom a b ↔ a ≤ x ∧ x < b := by
  simp only [rangeFrom, List.mem_map, List.mem_range]
  constructor
  · rintro ⟨y, hy, rfl⟩; omega
  · rintro ⟨h1, h2⟩; exact ⟨x - a, by omega, by omega⟩

theorem rangeFrom_succ_right {a b : Nat} (h : a ≤ b) :
    rangeFrom a (b + 1) = rangeFrom a b ++ [b] := by
  simp only [rangeFrom]
  have : b + 1 - a = (b - a) + 1 := by omega
  rw [this, List.range_succ, List.map_append]
  simp [Nat.add_comm, Nat.sub_add_cancel h, Nat.add_sub_cancel' h]

theorem nodup_rangeFrom (a b : Nat) : (rangeFrom a b).Nodup :=
  (List.nodup_range _).map fun _ _ h => by omega

-- ── The cell-grid characterization of setCell ───────────────────────────────

/-- Writing through `ws.cell(row=r, column=c)` changes exactly the grid
position `(r-1, c-1)` (by `f`) and no other position. -/
theorem getIdx_setCell (s : Sheet) (r c : Nat) (f : Cell → Cell) (i j : Nat)
    (hr : 1 ≤ r) (hc : 1 ≤ c) :
    (s.setCell r c f).getIdx i j =
      if i = r - 1 ∧ j = c - 1 then f (s.getIdx i j) else s.getIdx i j := by
  unfold Sheet.setCell Sheet.getIdx
  simp only
  have hlen1 : (s.rows ++ List.replicate (r - s.rows.length) []).length =
      s.rows.length + (r - s.rows.length) := by simp
  have hrowsD : ∀ k, (s.rows ++ List.replicate (r - s.rows.length) ([] : List Cell)).getD k []
      = s.rows.getD k [] := fun k => getD_append_replicate _ _ _ _
  by_cases hi : i = r - 1
  · subst hi
    rw [getD_set_self _ _ _ _ (by rw [hlen1]; omega)]
    set row := (s.rows ++ List.replicate (r - s.rows.length) ([] : List Cell)).getD (r - 1) []
      with hrow
    have hrow' : row = s.rows.getD (r - 1) [] := hrowsD _
    have hpadD : ∀ k, (row ++ List.replicate (c - row.length) defaultCell).getD k defaultCell
        = row.getD k defaultCell := fun k => getD_append_replicate _ _ _ _
    by_cases hj : j = c - 1
    · subst hj
      rw [getD_set_self _ _ _ _ (by simp; omega), if_pos ⟨rfl, rfl⟩, hpadD, hrow']
    · rw [getD_set_ne _ _ _ _ _ (by omega), hpadD, hrow',
        if_neg (by intro hco; exact hj hco.2)]
  · rw [getD_set_ne _ _ _ _ _ (by omega), hrowsD, if_neg (by intro hco; exact hi hco.1)]

/-- `setCell` with a value-preserving update preserves every value in the
grid. -/
theorem value_getIdx_setCell (s : Sheet) (r c : Nat) (f : Cell → Cell) (i j : Nat)
    (hr : 1 ≤ r) (hc : 1 ≤ c) (hf : ∀ cl, (f cl).value = cl.value) :
    ((s.setCell r c f).getIdx i j).value = (s.getIdx i j).value := by
  rw [getIdx_setCell s r c f i j hr hc]
  split
  · exact hf _
  · rfl

/-- An in-range `setCell` write does not change the row count. -/
theorem maxRow_setCell_le (s : Sheet) (r c : Nat) (f : Cell → Cell)
    (h : r ≤ s.maxRow) :
    (s.setCell r c f).maxRow = s.maxRow := by
  unfold Sheet.setCell Sheet.maxRow at *
  simp only [List.length_set, List.length_append, List.length_replicate]
  omega

-- ── Projection lemmas for the sheet operations ──────────────────────────────

theorem title_setCell (s : Sheet) (r c : Nat) (f : Cell → Cell) :
    (s.setCell r c f).title = s.title := rfl

theorem widths_setCell (s : Sheet) (r c : Nat) (f : Cell → Cell) :
    (s.setCell r c f).widths = s.widths := rfl

theorem title_appendRow (s : Sheet) (v : List CellValue) :
    (s.appendRow v).title = s.title := rfl

theorem rows_setWidth (s : Sheet) (c w : Nat) : (s.setWidth c w).rows = s.rows := rfl

theorem title_setWidth (s : Sheet) (c w : Nat) : (s.setWidth c w).title = s.title := rfl

theorem rows_setRowHeight (s : Sheet) (r h : Nat) : (s.setRowHeight r h).rows = s.rows := rfl

theorem title_setRowHeight (s : Sheet) (r h : Nat) :
    (s.setRowHeight r h).title = s.title := rfl

theorem widths_setRowHeight (s : Sheet) (r h : Nat) :
    (s.setRowHeight r h).widths = s.widths := rfl

theorem rows_setFilter (s : Sheet) (ref : String) : (s.setFilter ref).rows = s.rows := rfl

theorem title_setFilter (s : Sheet) (ref : String) : (s.setFilter ref).title = s.title := rfl

theorem widths_setFilter (s : Sheet) (ref : String) :
    (s.setFilter ref).widths = s.widths := rfl

theorem rows_setFreeze (s : Sheet) (p : String) : (s.setFreeze p).rows = s.rows := rfl

theorem maxRow_setFreeze (s : Sheet) (p : String) :
    (s.setFreeze p).maxRow = s.maxRow := rfl

theorem maxRow_setFilter (s : Sheet) (ref : String) :
    (s.setFilter ref).maxRow = s.maxRow := rfl

theorem title_setFreeze (s : Sheet) (p : String) : (s.setFreeze p).title = s.title := rfl

theorem widths_setFreeze (s : Sheet) (p : String) : (s.setFreeze p).widths = s.widths := rfl

theorem getIdx_setRowHeight (s : Sheet) (r h i j : Nat) :
    (s.setRowHeight r h).getIdx i j = s.getIdx i j := rfl

theorem getIdx_setFilter (s : Sheet) (ref : String) (i j : Nat) :
    (s.setFilter ref).getIdx i j = s.getIdx i j := rfl

theorem getIdx_setFreeze (s : Sheet) (p : String) (i j : Nat) :
    (s.setFreeze p).getIdx i j = s.getIdx i j := rfl

-- ── Fold helpers ────────────────────────────────────────────────────────────

theorem foldl_preserve {σ α β : Type} (f : σ → β) (g : σ → α → σ) (l : List α)
    (h : ∀ s a, a ∈ l → f (g s a) = f s) : ∀ s, f (l.foldl g s) = f s := by
  induction l with
  | nil => intro s; rfl
  | cons a l ih =>
    intro s
    rw [List.foldl_cons, ih (fun s b hb => h s b (List.mem_cons_of_mem _ hb)),
      h s a (List.mem_cons_self _ _)]

theorem foldl_inv {σ α : Type} (P : σ → Prop) (g : σ → α → σ) (l : List α)
    (h : ∀ s a, a ∈ l → P s → P (g s a)) : ∀ s, P s → P (l.foldl g s) := by
  induction l with
  | nil => intro s hs; exact hs
  | cons a l ih =>
    intro s hs
    exact ih (fun s b hb => h s b (List.mem_cons_of_mem _ hb)) _
      (h s a (List.mem_cons_self _ _) hs)

/-- An in-range `setCell` write preserves the arity of every row. -/
theorem rowsLen_setCell (s : Sheet) (r c : Nat) (f : Cell → Cell)
    (hr2 : r ≤ s.maxRow) (hc : c ≤ (s.rows.getD (r - 1) []).length) :
    (s.setCell r c f).rows.map List.length = s.rows.map List.length := by
  unfold Sheet.setCell
  have h0 : r - s.rows.length = 0 := by
    unfold Sheet.maxRow at hr2; omega
  simp only [h0, List.replicate_zero, List.append_nil]
  have hc0 : c - (s.rows.getD (r - 1) []).length = 0 := by omega
  simp only [hc0, List.replicate_zero, List.append_nil]
  rw [List.map_set, List.length_set, ← getD_map_length, set_getD_self]

-- ── Frame lemmas: styling never touches values, titles or widths ────────────

theorem title_style_header_row (ws : Sheet) (n : Nat) :
    (style_header_row ws n).title = ws.title := by
  unfold style_header_row
  simp only [title_setRowHeight]
  refine foldl_preserve Sheet.title _ _ (fun s a _ => ?_) ws
  rfl

theorem title_style_data_rows (ws : Sheet) (a b n : Nat) (alt : Bool) :
    (style_data_rows ws a b n alt).title = ws.title := by
  unfold style_data_rows
  refine foldl_preserve Sheet.title _ _ (fun s r _ => ?_) ws
  simp only
  split
  · refine Eq.trans (foldl_preserve Sheet.title _ _ (fun s c _ => ?_) _)
      (foldl_preserve Sheet.title _ _ (fun s c _ => ?_) s) <;> rfl
  · refine foldl_preserve Sheet.title _ _ (fun s c _ => ?_) s
    rfl

theorem title_auto_width (ws : Sheet) (n mi ma : Nat) :
    (auto_width ws n mi ma).title = ws.title := by
  refine foldl_preserve Sheet.title _ _ (fun s a _ => ?_) ws
  rfl

theorem rows_auto_width (ws : Sheet) (n mi ma : Nat) :
    (auto_width ws n mi ma).rows = ws.rows := by
  refine foldl_preserve Sheet.rows _ _ (fun s a _ => ?_) ws
  rfl

theorem getIdx_auto_width (ws : Sheet) (n mi ma i j : Nat) :
    (auto_width ws n mi ma).getIdx i j = ws.getIdx i j := by
  unfold Sheet.getIdx
  rw [rows_auto_width]

theorem title_colorRaciCells (ws : Sheet) : (colorRaciCells ws).title = ws.title := by
  unfold colorRaciCells
  refine foldl_preserve Sheet.title _ _ (fun s r _ => ?_) ws
  refine foldl_preserve Sheet.title _ _ (fun s c _ => ?_) s
  simp only
  split <;> rfl

theorem title_centerStatusColumn (ws : Sheet) :
    (centerStatusColumn ws).title = ws.title := by
  refine foldl_preserve Sheet.title _ _ (fun s r _ => ?_) ws
  rfl

theorem widths_style_header_row (ws : Sheet) (n : Nat) :
    (style_header_row ws n).widths = ws.widths := by
  unfold style_header_row
  simp only [widths_setRowHeight]
  refine foldl_preserve Sheet.widths _ _ (fun s a _ => ?_) ws
  rfl

theorem widths_style_data_rows (ws : Sheet) (a b n : Nat) (alt : Bool) :
    (style_data_rows ws a b n alt).widths = ws.widths := by
  unfold style_data_rows
  refine foldl_preserve Sheet.widths _ _ (fun s r _ => ?_) ws
  simp only
  split
  · refine Eq.trans (foldl_preserve Sheet.widths _ _ (fun s c _ => ?_) _)
      (foldl_preserve Sheet.widths _ _ (fun s c _ => ?_) s) <;> rfl
  · refine foldl_preserve Sheet.widths _ _ (fun s c _ => ?_) s
    rfl

theorem widths_colorRaciCells (ws : Sheet) : (colorRaciCells ws).widths = ws.widths := by
  unfold colorRaciCells
  refine foldl_preserve Sheet.widths _ _ (fun s r _ => ?_) ws
  refine foldl_preserve Sheet.widths _ _ (fun s c _ => ?_) s
  simp only
  split <;> rfl

theorem widths_centerStatusColumn (ws : Sheet) :
    (centerStatusColumn ws).widths = ws.widths := by
  refine foldl_preserve Sheet.widths _ _ (fun s r _ => ?_) ws
  rfl

/-- `style_header_row` changes no cell value. -/
theorem value_style_header_row (ws : Sheet) (n i j : Nat) :
    ((style_header_row ws n).getIdx i j).value = (ws.getIdx i j).value := by
  unfold style_header_row
  simp only [getIdx_setRowHeight]
  refine foldl_preserve (fun s : Sheet => (s.getIdx i j).value) _ _ (fun s col hcol => ?_) ws
  exact value_getIdx_setCell s 1 col _ i j (by omega) (mem_rangeFrom.mp hcol).1
    (fun cl => rfl)

/-- `style_data_rows` changes no cell value (for a row range starting at
row 1 or later, as in every call site). -/
theorem value_style_data_rows (ws : Sheet) (a b n : Nat) (alt : Bool) (i j : Nat)
    (ha : 1 ≤ a) :
    ((style_data_rows ws a b n alt).getIdx i j).value = (ws.getIdx i j).value := by
  unfold style_data_rows
  refine foldl_preserve (fun s : Sheet => (s.getIdx i j).value) _ _ (fun s r hr => ?_) ws
  have hr1 : 1 ≤ r := le_trans ha (mem_rangeFrom.mp hr).1
  simp only
  split
  · refine Eq.trans
      (foldl_preserve (fun s : Sheet => (s.getIdx i j).value) _ _ (fun s' c hc => ?_) _)
      (foldl_preserve (fun s : Sheet => (s.getIdx i j).value) _ _ (fun s' c hc => ?_) s) <;>
      exact value_getIdx_setCell s' r c _ i j hr1 (mem_rangeFrom.mp hc).1 (fun cl => rfl)
  · refine foldl_preserve (fun s : Sheet => (s.getIdx i j).value) _ _ (fun s' c hc => ?_) s
    exact value_getIdx_setCell s' r c _ i j hr1 (mem_rangeFrom.mp hc).1 (fun cl => rfl)

/-- The RACI color-coding loop changes no cell value. -/
theorem value_colorRaciCells (ws : Sheet) (i j : Nat) :
    ((colorRaciCells ws).getIdx i j).value = (ws.getIdx i j).value := by
  unfold colorRaciCells
  refine foldl_preserve (fun s : Sheet => (s.getIdx i j).value) _ _ (fun s r hr => ?_) ws
  refine foldl_preserve (fun s : Sheet => (s.getIdx i j).value) _ _ (fun s c hc => ?_) s
  have hr1 : 1 ≤ r := by have := (mem_rangeFrom.mp hr).1; omega
  have hc1 : 1 ≤ c := by have := (mem_rangeFrom.mp hc).1; omega
  simp only
  split
  · exact value_getIdx_setCell s r c _ i j hr1 hc1 (fun cl => rfl)
  · rfl

/-- The Status-column centering loop changes no cell value. -/
theorem value_centerStatusColumn (ws : Sheet) (i j : Nat) :
    ((centerStatusColumn ws).getIdx i j).value = (ws.getIdx i j).value := by
  unfold centerStatusColumn
  refine foldl_preserve (fun s : Sheet => (s.getIdx i j).value) _ _ (fun s r hr => ?_) ws
  have hr1 : 1 ≤ r := by have := (mem_rangeFrom.mp hr).1; omega
  exact value_getIdx_setCell s r 9 _ i j hr1 (by omega) (fun cl => rfl)

-- ── Row-arity preservation through the styling pipeline ─────────────────────

theorem rowLen_of_rowsLen {s : Sheet} {k n : Nat}
    (h : s.rows.map List.length = List.replicate k n) {i : Nat} (hi : i < k) :
    (s.rows.getD i []).length = n := by
  rw [← getD_map_length, h, List.getD_eq_getElem?_getD, List.getElem?_replicate,
    if_pos hi, Option.getD_some]

theorem maxRow_of_rowsLen {s : Sheet} {k n : Nat}
    (h : s.rows.map List.length = List.replicate k n) : s.maxRow = k := by
  unfold Sheet.maxRow
  have := congrArg List.length h
  simpa using this

theorem rowsLen_style_header_row (ws : Sheet) (n : Nat)
    (hR : 1 ≤ ws.maxRow) (hC : n ≤ (ws.rows.getD 0 []).length) :
    (style_header_row ws n).rows.map List.length = ws.rows.map List.length := by
  unfold style_header_row
  simp only [rows_setRowHeight]
  refine foldl_inv (fun s : Sheet => s.rows.map List.length = ws.rows.map List.length)
    _ _ (fun s col hcol hs => ?_) ws rfl
  have hlen : s.rows.length = ws.rows.length := by
    have := congrArg List.length hs; simpa using this
  have hrow : (s.rows.getD 0 []).length = (ws.rows.getD 0 []).length := by
    rw [← getD_map_length, hs, getD_map_length]
  have hcoln : col ≤ n := by have := (mem_rangeFrom.mp hcol).2; omega
  simp only
  rw [rowsLen_setCell s 1 col _ (by unfold Sheet.maxRow at *; omega)
    (by rw [hrow]; exact le_trans hcoln hC)]
  exact hs

theorem rowsLen_style_data_rows (ws : Sheet) (a b n : Nat) (alt : Bool)
    (ha : 1 ≤ a) (hb : b ≤ ws.maxRow)
    (hC : ∀ i, i < ws.maxRow → n ≤ (ws.rows.getD i []).length) :
    (style_data_rows ws a b n alt).rows.map List.length = ws.rows.map List.length := by
  unfold style_data_rows
  refine foldl_inv (fun s : Sheet => s.rows.map List.length = ws.rows.map List.length)
    _ _ (fun s r hr hs => ?_) ws rfl
  have hr1 : 1 ≤ r := le_trans ha (mem_rangeFrom.mp hr).1
  have hr2 : r ≤ ws.maxRow := le_trans (by have := (mem_rangeFrom.mp hr).2; omega) hb
  have hstep : ∀ (s' : Sheet) (c : Nat), c ∈ rangeFrom 1 (n + 1) →
      s'.rows.map List.length = ws.rows.map List.length →
      ∀ f : Cell → Cell, (s'.setCell r c f).rows.map List.length = ws.rows.map List.length := by
    intro s' c hc hs' f
    have hlen : s'.rows.length = ws.rows.length := by
      have := congrArg List.length hs'; simpa using this
    have hrow : (s'.rows.getD (r - 1) []).length = (ws.rows.getD (r - 1) []).length := by
      rw [← getD_map_length, hs', getD_map_length]
    have hcn : c ≤ n := by have := (mem_rangeFrom.mp hc).2; omega
    rw [rowsLen_setCell s' r c f (by unfold Sheet.maxRow at *; omega)
      (by rw [hrow]; exact le_trans hcn (hC (r - 1) (by unfold Sheet.maxRow at *; omega)))]
    exact hs'
  simp only
  split
  · refine foldl_inv (fun s : Sheet => s.rows.map List.length = ws.rows.map List.length)
      _ _ (fun s' c hc hs' => hstep s' c hc hs' _) _ ?_
    exact foldl_inv (fun s : Sheet => s.rows.map List.length = ws.rows.map List.length)
      _ _ (fun s' c hc hs' => hstep s' c hc hs' _) s hs
  · exact foldl_inv (fun s : Sheet => s.rows.map List.length = ws.rows.map List.length)
      _ _ (fun s' c hc hs' => hstep s' c hc hs' _) s hs

theorem rowsLen_colorRaciCells (ws : Sheet)
    (hC : ∀ i, i < ws.maxRow → raciHeaders.length ≤ (ws.rows.getD i []).length) :
    (colorRaciCells ws).rows.map List.length = ws.rows.map List.length := by
  unfold colorRaciCells
  refine foldl_inv (fun s : Sheet => s.rows.map List.length = ws.rows.map List.length)
    _ _ (fun s r hr hs => ?_) ws rfl
  have hr1 : 1 ≤ r := by have := (mem_rangeFrom.mp hr).1; omega
  have hr2 : r ≤ ws.maxRow := by have := (mem_rangeFrom.mp hr).2; omega
  refine foldl_inv (fun s : Sheet => s.rows.map List.length = ws.rows.map List.length)
    _ _ (fun s' c hc hs' => ?_) s hs
  have hcn : c ≤ raciHeaders.length := by have := (mem_rangeFrom.mp hc).2; omega
  have hlen : s'.rows.length = ws.rows.length := by
    have := congrArg List.length hs'; simpa using this
  have hrow : (s'.rows.getD (r - 1) []).length = (ws.rows.getD (r - 1) []).length := by
    rw [← getD_map_length, hs', getD_map_length]
  simp only
  split
  · rw [rowsLen_setCell s' r c _ (by unfold Sheet.maxRow at *; omega)
      (by rw [hrow]; exact le_trans hcn (hC (r - 1) (by unfold Sheet.maxRow at *; omega)))]
    exact hs'
  · exact hs'

theorem rowsLen_centerStatusColumn (ws : Sheet)
    (hC : ∀ i, i < ws.maxRow → 9 ≤ (ws.rows.getD i []).length) :
    (centerStatusColumn ws).rows.map List.length = ws.rows.map List.length := by
  unfold centerStatusColumn
  refine foldl_inv (fun s : Sheet => s.rows.map List.length = ws.rows.map List.length)
    _ _ (fun s r hr hs => ?_) ws rfl
  have hr1 : 2 ≤ r := (mem_rangeFrom.mp hr).1
  have hr2 : r ≤ ws.maxRow := by have := (mem_rangeFrom.mp hr).2; omega
  have hlen : s.rows.length = ws.rows.length := by
    have := congrArg List.length hs; simpa using this
  have hrow : (s.rows.getD (r - 1) []).length = (ws.rows.getD (r - 1) []).length := by
    rw [← getD_map_length, hs, getD_map_length]
  simp only
  rw [rowsLen_setCell s r 9 _ (by unfold Sheet.maxRow at *; omega)
    (by rw [hrow]; exact hC (r - 1) (by unfold Sheet.maxRow at *; omega))]
  exact hs

/-- The arity-preservation of the shared styling core
`auto_width ∘ style_data_rows ∘ style_header_row` used by every builder. -/
theorem rowsLen_styleCore (F : Sheet) (n k : Nat)
    (hF : F.rows.map List.length = List.replicate k n) (hk : 1 ≤ k) :
    (auto_width (style_data_rows (style_header_row F n) 2
        (style_header_row F n).maxRow n true) n 12 50).rows.map List.length
      = List.replicate k n := by
  have h1 : (style_header_row F n).rows.map List.length = F.rows.map List.length :=
    rowsLen_style_header_row F n (by rw [maxRow_of_rowsLen hF]; exact hk)
      (le_of_eq (rowLen_of_rowsLen hF (by omega)).symm)
  have hZ : (style_header_row F n).rows.map List.length = List.replicate k n :=
    h1.trans hF
  have h2 : (style_data_rows (style_header_row F n) 2 (style_header_row F n).maxRow n
      true).rows.map List.length = (style_header_row F n).rows.map List.length := by
    refine rowsLen_style_data_rows _ 2 _ n true (by omega) (le_refl _) (fun i hi => ?_)
    rw [rowLen_of_rowsLen hZ (by rw [maxRow_of_rowsLen hZ] at hi; exact hi)]
  rw [rows_auto_width]
  exact h2.trans hZ

-- ── The six finished sheets ─────────────────────────────────────────────────

/-- `main` produces exactly the six built sheets, in build order; the
default sheet of the fresh workbook is the one the inventory builder
retitles. -/
theorem main_sheets (t : Nat) :
    (main t).sheets =
      [inventoryBuilt (Sheet.empty "Sheet"),
       phasesBuilt t (Sheet.empty "Migration Phases"),
       riskBuilt (Sheet.empty "Risk Register"),
       raciBuilt (Sheet.empty "RACI Matrix"),
       issueBuilt (Sheet.empty "Issue Tracker"),
       checklistBuilt (Sheet.empty "Validation Checklist")] := rfl

theorem title_inventoryBuilt :
    (inventoryBuilt (Sheet.empty "Sheet")).title = "Migration Inventory" := by
  simp only [inventoryBuilt]
  rw [title_setFreeze, title_setFilter, title_auto_width, title_style_data_rows,
    title_style_header_row]
  rfl

theorem title_phasesBuilt (t : Nat) :
    (phasesBuilt t (Sheet.empty "Migration Phases")).title = "Migration Phases" := by
  simp only [phasesBuilt]
  rw [title_centerStatusColumn, title_setFreeze, title_auto_width,
    title_style_data_rows, title_style_header_row]
  rfl

theorem title_riskBuilt :
    (riskBuilt (Sheet.empty "Risk Register")).title = "Risk Register" := by
  simp only [riskBuilt]
  rw [title_setFreeze, title_setFilter, title_auto_width, title_style_data_rows,
    title_style_header_row]
  rfl

theorem title_raciBuilt :
    (raciBuilt (Sheet.empty "RACI Matrix")).title = "RACI Matrix" := by
  simp only [raciBuilt]
  rw [title_colorRaciCells, title_setFreeze, title_auto_width,
    title_style_data_rows, title_style_header_row]
  rfl

theorem title_issueBuilt :
    (issueBuilt (Sheet.empty "Issue Tracker")).title = "Issue Tracker" := by
  simp only [issueBuilt]
  rw [title_setFreeze, title_setFilter, title_auto_width, title_style_data_rows,
    title_style_header_row]
  rfl

theorem title_checklistBuilt :
    (checklistBuilt (Sheet.empty "Validation Checklist")).title
      = "Validation Checklist" := by
  simp only [checklistBuilt]
  rw [title_setFreeze, title_setFilter, title_auto_width, title_style_data_rows,
    title_style_header_row]
  rfl

theorem value_inventoryBuilt (ws0 : Sheet) (i j : Nat) :
    ((inventoryBuilt ws0).getIdx i j).value
      = ((inventoryFilled ws0).getIdx i j).value := by
  simp only [inventoryBuilt]
  rw [getIdx_setFreeze, getIdx_setFilter, getIdx_auto_width,
    value_style_data_rows _ 2 _ _ _ _ _ (by omega), value_style_header_row]

theorem value_phasesBuilt (t : Nat) (ws0 : Sheet) (i j : Nat) :
    ((phasesBuilt t ws0).getIdx i j).value
      = ((phasesFilled t ws0).getIdx i j).value := by
  simp only [phasesBuilt]
  rw [value_centerStatusColumn, getIdx_setFreeze, getIdx_auto_width,
    value_style_data_rows _ 2 _ _ _ _ _ (by omega), value_style_header_row]

theorem value_riskBuilt (ws0 : Sheet) (i j : Nat) :
    ((riskBuilt ws0).getIdx i j).value = ((riskFilled ws0).getIdx i j).value := by
  simp only [riskBuilt]
  rw [getIdx_setFreeze, getIdx_setFilter, getIdx_auto_width,
    value_style_data_rows _ 2 _ _ _ _ _ (by omega), value_style_header_row]

theorem value_raciBuilt (ws0 : Sheet) (i j : Nat) :
    ((raciBuilt ws0).getIdx i j).value = ((raciFilled ws0).getIdx i j).value := by
  simp only [raciBuilt]
  rw [value_colorRaciCells, getIdx_setFreeze, getIdx_auto_width,
    value_style_data_rows _ 2 _ _ _ _ _ (by omega), value_style_header_row]

theorem value_issueBuilt (ws0 : Sheet) (i j : Nat) :
    ((issueBuilt ws0).getIdx i j).value = ((issueFilled ws0).getIdx i j).value := by
  simp only [issueBuilt]
  rw [getIdx_setFreeze, getIdx_setFilter, getIdx_auto_width,
    value_style_data_rows _ 2 _ _ _ _ _ (by omega), value_style_header_row]

theorem value_checklistBuilt (ws0 : Sheet) (i j : Nat) :
    ((checklistBuilt ws0).getIdx i j).value
      = ((checklistFilled ws0).getIdx i j).value := by
  simp only [checklistBuilt]
  rw [getIdx_setFreeze, getIdx_setFilter, getIdx_auto_width,
    value_style_data_rows _ 2 _ _ _ _ _ (by omega), value_style_header_row]

theorem rowsLen_inventoryBuilt :
    (inventoryBuilt (Sheet.empty "Sheet")).rows.map List.length
      = List.replicate 23 14 := by
  simp only [inventoryBuilt]
  rw [rows_setFreeze, rows_setFilter]
  exact rowsLen_styleCore _ _ 23 (by decide) (by omega)

theorem rowsLen_phasesBuilt (t : Nat) :
    (phasesBuilt t (Sheet.empty "Migration Phases")).rows.map List.length
      = List.replicate 7 12 := by
  simp only [phasesBuilt]
  have hF : (phasesFilled t (Sheet.empty "Migration Phases")).rows.map List.length
      = List.replicate 7 phasesHeaders.length := by rfl
  have hcore := rowsLen_styleCore (phasesFilled t (Sheet.empty "Migration Phases"))
    phasesHeaders.length 7 hF (by omega)
  rw [rowsLen_centerStatusColumn _ (fun i hi => ?_), rows_setFreeze]
  · exact hcore
  · rw [maxRow_setFreeze, maxRow_of_rowsLen hcore] at hi
    rw [rows_setFreeze, rowLen_of_rowsLen hcore hi]
    decide

theorem rowsLen_riskBuilt :
    (riskBuilt (Sheet.empty "Risk Register")).rows.map List.length
      = List.replicate 21 10 := by
  simp only [riskBuilt]
  rw [rows_setFreeze, rows_setFilter]
  exact rowsLen_styleCore _ _ 21 (by decide) (by omega)

theorem rowsLen_raciBuilt :
    (raciBuilt (Sheet.empty "RACI Matrix")).rows.map List.length
      = List.replicate 18 8 := by
  simp only [raciBuilt]
  have hcore := rowsLen_styleCore (raciFilled (Sheet.empty "RACI Matrix"))
    raciHeaders.length 18 (by decide) (by omega)
  rw [rowsLen_colorRaciCells _ (fun i hi => ?_), rows_setFreeze]
  · exact hcore
  · rw [maxRow_setFreeze, maxRow_of_rowsLen hcore] at hi
    rw [rows_setFreeze, rowLen_of_rowsLen hcore hi]

theorem rowsLen_issueBuilt :
    (issueBuilt (Sheet.empty "Issue Tracker")).rows.map List.length
      = List.replicate 32 10 := by
  simp only [issueBuilt]
  rw [rows_setFreeze, rows_setFilter]
  exact rowsLen_styleCore _ _ 32 (by decide) (by omega)

theorem rowsLen_checklistBuilt :
    (checklistBuilt (Sheet.empty "Validation Checklist")).rows.map List.length
      = List.replicate 31 9 := by
  simp only [checklistBuilt]
  rw [rows_setFreeze, rows_setFilter]
  exact rowsLen_styleCore _ _ 31 (by decide) (by omega)

-- ── Out-of-range reads and helper facts ─────────────────────────────────────

theorem getIdx_out_row (s : Sheet) (i j : Nat) (h : s.rows.length ≤ i) :
    s.getIdx i j = defaultCell := by
  unfold Sheet.getIdx
  rw [List.getD_eq_getElem?_getD s.rows i [], List.getElem?_eq_none h]
  rfl

theorem getIdx_out_col (s : Sheet) (i j : Nat)
    (h : (s.rows.getD i []).length ≤ j) :
    s.getIdx i j = defaultCell := by
  unfold Sheet.getIdx
  rw [List.getD_eq_getElem?_getD (s.rows.getD i []), List.getElem?_eq_none h]
  rfl

theorem rowLen_le_of_rowsLen {s : Sheet} {k n : Nat}
    (h : s.rows.map List.length = List.replicate k n) (i : Nat) :
    (s.rows.getD i []).length ≤ n := by
  rcases Nat.lt_or_ge i k with hi | hi
  · exact le_of_eq (rowLen_of_rowsLen h hi)
  · have hk : s.rows.length = k := by
      have := congrArg List.length h; simpa using this
    rw [List.getD_eq_getElem?_getD, List.getElem?_eq_none (by omega)]
    simp

set_option maxHeartbeats 2000000 in
/-- Away from the Planned Start / Planned End columns (columns 5 and 6 of
data rows), the phases grid does not depend on the current date. -/
theorem phasesFilled_value_eq (t₁ t₂ r c : Nat)
    (h : ¬(2 ≤ r ∧ (c = 5 ∨ c = 6))) :
    ((phasesFilled t₁ (Sheet.empty "Migration Phases")).getIdx (r - 1) (c - 1)).value
      = ((phasesFilled t₂ (Sheet.empty "Migration Phases")).getIdx (r - 1) (c - 1)).value := by
  have hF1 : (phasesFilled t₁ (Sheet.empty "Migration Phases")).rows.map List.length
      = List.replicate 7 12 := by rfl
  have hF2 : (phasesFilled t₂ (Sheet.empty "Migration Phases")).rows.map List.length
      = List.replicate 7 12 := by rfl
  by_cases hr : r ≤ 7
  · by_cases hc : c ≤ 12
    · clear hF1 hF2
      interval_cases r <;> interval_cases c <;>
        first
          | rfl
          | exact absurd ⟨by decide, by decide⟩ h
    · rw [getIdx_out_col _ _ _ (le_trans (rowLen_le_of_rowsLen hF1 _) (by omega)),
        getIdx_out_col _ _ _ (le_trans (rowLen_le_of_rowsLen hF2 _) (by omega))]
  · have hlen1 : (phasesFilled t₁ (Sheet.empty "Migration Phases")).rows.length = 7 := by
      have := congrArg List.length hF1; simpa using this
    have hlen2 : (phasesFilled t₂ (Sheet.empty "Migration Phases")).rows.length = 7 := by
      have := congrArg List.length hF2; simpa using this
    rw [getIdx_out_row _ _ _ (by omega), getIdx_out_row _ _ _ (by omega)]

-- ── Width assignment characterization ───────────────────────────────────────

theorem getWidth_setWidth (s : Sheet) (c w c' : Nat) :
    (s.setWidth c w).getWidth c' = if c' = c then some w else s.getWidth c' := by
  unfold Sheet.setWidth Sheet.getWidth
  rw [List.find?_cons]
  by_cases h : c' = c
  · subst h
    simp
  · have hbeq : (((c, w) : Nat × Nat).1 == c') = false := by
      simp only [beq_eq_false_iff_ne, ne_eq]
      omega
    rw [hbeq, if_neg h, find?_filter_of_imp]
    intro x hx
    simp only [beq_iff_eq] at hx
    simp only [bne_iff_ne, ne_eq, hx]
    omega

/-- Unfolding one step of the `auto_width` column loop. -/
theorem auto_width_succ (ws : Sheet) (m mi ma : Nat) :
    auto_width ws (m + 1) mi ma =
      (auto_width ws m mi ma).setWidth (m + 1)
        (min (max ((((rangeFrom 2 ((auto_width ws m mi ma).maxRow + 1)).map
            (fun r => (pyStr ((auto_width ws m mi ma).cell r (m + 1)).value).length)).foldl
              Nat.max ((pyStr ((auto_width ws m mi ma).cell 1 (m + 1)).value).length)) + 4)
          mi) ma) := by
  conv =>
    lhs
    unfold auto_width
  conv =>
    rhs
    unfold auto_width
  rw [rangeFrom_succ_right (by omega), List.foldl_append]
  rfl

/-- `auto_width` assigns every column `1..n` exactly the clamped
best-fit width computed from the sheet's current contents. -/
theorem getWidth_auto_width_all (ws : Sheet) (mi ma : Nat) :
    ∀ n col, 1 ≤ col → col ≤ n →
      (auto_width ws n mi ma).getWidth col =
        some (min (max ((((rangeFrom 2 (ws.maxRow + 1)).map
            (fun r => (pyStr (ws.cell r col).value).length)).foldl Nat.max
              ((pyStr (ws.cell 1 col).value).length) + 4)) mi) ma) := by
  intro n
  induction n with
  | zero => intro col h1 h2; omega
  | succ m ih =>
    intro col h1 h2
    have hcell : ∀ r c, (auto_width ws m mi ma).cell r c = ws.cell r c := by
      intro r c
      unfold Sheet.cell Sheet.getIdx
      rw [rows_auto_width]
    have hmax : (auto_width ws m mi ma).maxRow = ws.maxRow := by
      unfold Sheet.maxRow
      rw [rows_auto_width]
    rw [auto_width_succ, getWidth_setWidth]
    by_cases hcol : col = m + 1
    · rw [if_pos hcol, hcol]
      simp only [hcell, hmax]
    · rw [if_neg hcol]
      exact ih col h1 (by omega)

theorem foldl_max_of_zero (l : List Nat) (a : Nat) (h : ∀ x ∈ l, x = 0) :
    l.foldl Nat.max a = a := by
  induction l generalizing a with
  | nil => rfl
  | cons b l ih =>
    have hz : Nat.max a 0 = a := Nat.max_eq_left (Nat.zero_le a)
    rw [List.foldl_cons, h b (List.mem_cons_self _ _), hz]
    exact ih a (fun x hx => h x (List.mem_cons_of_mem _ hx))

-- ── Claims ──────────────────────────────────────────────────────────────────

/-- C1: running the generator's entry point produces a workbook containing
exactly six sheets named, in workbook order, "Migration Inventory",
"Migration Phases", "Risk Register", "RACI Matrix", "Issue Tracker",
"Validation Checklist"; the default active sheet is retitled and reused as
the first sheet, so no extra sheet remains. -/
theorem claim_c1_sheet_names (t : Nat) :
    (main t).sheets.map Sheet.title =
      ["Migration Inventory", "Migration Phases", "Risk Register",
       "RACI Matrix", "Issue Tracker", "Validation Checklist"] ∧
    (main t).sheets.length = 6 := by
  constructor
  · rw [main_sheets]
    simp only [List.map_cons, List.map_nil]
    rw [title_inventoryBuilt, title_phasesBuilt, title_riskBuilt, title_raciBuilt,
      title_issueBuilt, title_checklistBuilt]
  · rw [main_sheets]
    rfl

/-- C2: two runs of the generator (with possibly different current dates
`t₁`, `t₂`) agree on sheet names, header rows and all non-date cell
content; only the Planned Start / Planned End cells (columns 5 and 6 of the
data rows of sheet index 1, "Migration Phases") may differ. -/
theorem claim_c2_run_to_run (t₁ t₂ i r c : Nat)
    (h : ¬(i = 1 ∧ 2 ≤ r ∧ (c = 5 ∨ c = 6))) :
    (main t₁).sheets.map Sheet.title = (main t₂).sheets.map Sheet.title ∧
    ((main t₁).sheets.getD i (Sheet.empty "")).vAt r c
      = ((main t₂).sheets.getD i (Sheet.empty "")).vAt r c := by
  constructor
  · rw [main_sheets, main_sheets]
    simp only [List.map_cons, List.map_nil]
    rw [title_phasesBuilt, title_phasesBuilt]
  · rcases i with _ | _ | _ | _ | _ | _ | n <;>
      simp only [main_sheets, List.getD_cons_zero, List.getD_cons_succ, List.getD_nil]
    have h' : ¬(2 ≤ r ∧ (c = 5 ∨ c = 6)) := fun hc => h ⟨rfl, hc⟩
    unfold Sheet.vAt Sheet.cell
    rw [value_phasesBuilt, value_phasesBuilt]
    exact phasesFilled_value_eq t₁ t₂ r c h' 

theorem claim_c2_run_to_run_witness :
    ¬((0 : Nat) = 1 ∧ 2 ≤ 1 ∧ ((1 : Nat) = 5 ∨ (1 : Nat) = 6)) ∧
    ((main 5).sheets.map Sheet.title = (main 9).sheets.map Sheet.title ∧
     ((main 5).sheets.getD 0 (Sheet.empty "")).vAt 1 1
       = ((main 9).sheets.getD 0 (Sheet.empty "")).vAt 1 1) :=
  ⟨by decide, claim_c2_run_to_run 5 9 0 1 1 (by decide)⟩

/-- C5: the "Migration Phases" sheet has exactly 6 data rows (7 rows with
the header); their Planned Start / Planned End dates are `today` plus the
consecutive pairs of the fixed week offsets 0, 2, 3, 5, 8, 12, 14; the
starts are non-decreasing in row order and each row's start is at most its
end. -/
theorem claim_c5_phase_dates (t : Nat) :
    ((main t).sheets.getD 1 (Sheet.empty "")).rows.length = 7 ∧
    ((List.range 6).map fun k =>
        (((main t).sheets.getD 1 (Sheet.empty "")).vAt (k + 2) 5,
         ((main t).sheets.getD 1 (Sheet.empty "")).vAt (k + 2) 6))
      = (phaseWeekOffsets.zip phaseWeekOffsets.tail).map
          (fun p => (some (CellValue.date (t + 7 * p.1)),
                     some (CellValue.date (t + 7 * p.2)))) ∧
    List.Chain' cvDateLE ((List.range 6).map fun k =>
        ((main t).sheets.getD 1 (Sheet.empty "")).vAt (k + 2) 5) ∧
    (∀ k ∈ List.range 6,
      cvDateLE (((main t).sheets.getD 1 (Sheet.empty "")).vAt (k + 2) 5)
        (((main t).sheets.getD 1 (Sheet.empty "")).vAt (k + 2) 6)) := by
  have hsheet : (main t).sheets.getD 1 (Sheet.empty "")
      = phasesBuilt t (Sheet.empty "Migration Phases") := by
    rw [main_sheets]
    simp only [List.getD_cons_succ, List.getD_cons_zero]
  have hv : ∀ r c : Nat,
      (phasesBuilt t (Sheet.empty "Migration Phases")).vAt r c
        = (phasesFilled t (Sheet.empty "Migration Phases")).vAt r c := by
    intro r c
    unfold Sheet.vAt Sheet.cell
    rw [value_phasesBuilt]
  refine ⟨?_, ?_, ?_, ?_⟩
  · rw [hsheet]
    have := maxRow_of_rowsLen (rowsLen_phasesBuilt t)
    unfold Sheet.maxRow at this
    exact this
  · simp only [hsheet, hv]
    rfl
  · simp only [hsheet, hv]
    show List.Chain' cvDateLE
      [some (CellValue.date t), some (CellValue.date (t + 7 * 2)),
       some (CellValue.date (t + 7 * 3)), some (CellValue.date (t + 7 * 5)),
       some (CellValue.date (t + 7 * 8)), some (CellValue.date (t + 7 * 12))]
    simp only [List.chain'_cons, List.chain'_singleton, cvDateLE, and_true]
    omega
  · intro k hk
    simp only [hsheet, hv]
    rw [List.mem_range] at hk
    interval_cases k <;>
      · show cvDateLE (some (CellValue.date _)) (some (CellValue.date _))
        simp only [cvDateLE]
        omega

/-- C6: in every sheet every row (the header row and each appended data
row, seed or blank) has exactly the sheet's header count of cells, and
row 1 holds exactly the sheet's headers. -/
theorem claim_c6_row_arity (t : Nat) :
    (main t).sheets.map (fun s => s.rows.map List.length) =
      [List.replicate 23 14, List.replicate 7 12, List.replicate 21 10,
       List.replicate 18 8, List.replicate 32 10, List.replicate 31 9] ∧
    ((List.range 14).map fun j =>
        ((main t).sheets.getD 0 (Sheet.empty "")).vAt 1 (j + 1))
      = inventoryHeaders.map (fun s => some (CellValue.str s)) ∧
    ((List.range 12).map fun j =>
        ((main t).sheets.getD 1 (Sheet.empty "")).vAt 1 (j + 1))
      = phasesHeaders.map (fun s => some (CellValue.str s)) ∧
    ((List.range 10).map fun j =>
        ((main t).sheets.getD 2 (Sheet.empty "")).vAt 1 (j + 1))
      = riskHeaders.map (fun s => some (CellValue.str s)) ∧
    ((List.range 8).map fun j =>
        ((main t).sheets.getD 3 (Sheet.empty "")).vAt 1 (j + 1))
      = raciHeaders.map (fun s => some (CellValue.str s)) ∧
    ((List.range 10).map fun j =>
        ((main t).sheets.getD 4 (Sheet.empty "")).vAt 1 (j + 1))
      = issueHeaders.map (fun s => some (CellValue.str s)) ∧
    ((List.range 9).map fun j =>
        ((main t).sheets.getD 5 (Sheet.empty "")).vAt 1 (j + 1))
      = checklistHeaders.map (fun s => some (CellValue.str s)) := by
  refine ⟨?_, ?_, ?_, ?_, ?_, ?_, ?_⟩
  · rw [main_sheets]
    simp only [List.map_cons, List.map_nil]
    rw [rowsLen_inventoryBuilt, rowsLen_phasesBuilt, rowsLen_riskBuilt,
      rowsLen_raciBuilt, rowsLen_issueBuilt, rowsLen_checklistBuilt]
  · simp only [main_sheets, List.getD_cons_zero, List.getD_cons_succ,
      Sheet.vAt, Sheet.cell, value_inventoryBuilt]
    rfl
  · simp only [main_sheets, List.getD_cons_zero, List.getD_cons_succ,
      Sheet.vAt, Sheet.cell, value_phasesBuilt]
    rfl
  · simp only [main_sheets, List.getD_cons_zero, List.getD_cons_succ,
      Sheet.vAt, Sheet.cell, value_riskBuilt]
    rfl
  · simp only [main_sheets, List.getD_cons_zero, List.getD_cons_succ,
      Sheet.vAt, Sheet.cell, value_raciBuilt]
    rfl
  · simp only [main_sheets, List.getD_cons_zero, List.getD_cons_succ,
      Sheet.vAt, Sheet.cell, value_issueBuilt]
    rfl
  · simp only [main_sheets, List.getD_cons_zero, List.getD_cons_succ,
      Sheet.vAt, Sheet.cell, value_checklistBuilt]
    rfl

/-- C7: the styling operations — `style_header_row`, `style_data_rows` (for
any row range starting at row 1 or later, as in every call site) and the
RACI categorical coloring — never change any cell's value. -/
theorem claim_c7_styling_preserves_values (ws : Sheet) (n a b r c : Nat)
    (alt : Bool) (ha : 1 ≤ a) :
    (style_header_row ws n).vAt r c = ws.vAt r c ∧
    (style_data_rows ws a b n alt).vAt r c = ws.vAt r c ∧
    (colorRaciCells ws).vAt r c = ws.vAt r c :=
  ⟨value_style_header_row ws n (r - 1) (c - 1),
   value_style_data_rows ws a b n alt (r - 1) (c - 1) ha,
   value_colorRaciCells ws (r - 1) (c - 1)⟩

theorem claim_c7_styling_preserves_values_witness :
    (1 : Nat) ≤ 2 ∧
    ((style_header_row (Sheet.empty "w") 3).vAt 1 1 = (Sheet.empty "w").vAt 1 1 ∧
     (style_data_rows (Sheet.empty "w") 2 4 3 true).vAt 1 1 = (Sheet.empty "w").vAt 1 1 ∧
     (colorRaciCells (Sheet.empty "w")).vAt 1 1 = (Sheet.empty "w").vAt 1 1) :=
  ⟨by decide, claim_c7_styling_preserves_values (Sheet.empty "w") 3 2 4 1 1 true (by decide)⟩


/-- C3: after `auto_width` runs, every column `1..n` has width
`max(header length, max content length over all data rows) + 4` clamped
into `[12, 50]`, where contents are read at the moment of the call. -/
theorem claim_c3_auto_width_formula (ws : Sheet) (n col : Nat)
    (h1 : 1 ≤ col) (h2 : col ≤ n) :
    (auto_width ws n 12 50).getWidth col =
      some (min (max (Nat.max ((pyStr (ws.cell 1 col).value).length)
          (((rangeFrom 2 (ws.maxRow + 1)).map
              (fun r => (pyStr (ws.cell r col).value).length)).foldl Nat.max 0)
          + 4) 12) 50) := by
  rw [getWidth_auto_width_all ws 12 50 n col h1 h2, foldl_max_init]

theorem claim_c3_auto_width_formula_witness :
    (1 : Nat) ≤ 1 ∧ (1 : Nat) ≤ 1 ∧
    (auto_width wsSmall 1 12 50).getWidth 1 =
      some (min (max (Nat.max ((pyStr (wsSmall.cell 1 1).value).length)
          (((rangeFrom 2 (wsSmall.maxRow + 1)).map
              (fun r => (pyStr (wsSmall.cell r 1).value).length)).foldl Nat.max 0)
          + 4) 12) 50) :=
  ⟨by decide, by decide,
   claim_c3_auto_width_formula wsSmall 1 1 (by decide) (by decide)⟩

/-- C10 counterexample: for an all-blank column the width is NOT always
`max(header length + 4, 12)` — the upper clamp at 50 still applies, which
the claim's final clause omits. -/
theorem claim_c10_counterexample :
    (auto_width wsAllBlankLongHeader 1 12 50).getWidth 1
      ≠ some (Nat.max ((pyStr (wsAllBlankLongHeader.cell 1 1).value).length + 4) 12) := by
  decide

/-- C10 (amended): `None` and `""` cells are coerced to the empty string
(length 0) before measuring, so blank placeholder rows contribute length 0
and a column whose data cells are all blank gets width
`min(max(header length + 4, 12), 50)`. -/
theorem claim_c10_amended_blank_columns (ws : Sheet) (n col : Nat)
    (h1 : 1 ≤ col) (h2 : col ≤ n)
    (hblank : ∀ r, 2 ≤ r → r ≤ ws.maxRow →
      (ws.cell r col).value = none ∨ (ws.cell r col).value = some (CellValue.str "")) :
    pyStr none = "" ∧ pyStr (some (CellValue.str "")) = "" ∧
    (auto_width ws n 12 50).getWidth col =
      some (min (max ((pyStr (ws.cell 1 col).value).length + 4) 12) 50) := by
  refine ⟨rfl, rfl, ?_⟩
  rw [getWidth_auto_width_all ws 12 50 n col h1 h2]
  have hz : (((rangeFrom 2 (ws.maxRow + 1)).map
      (fun r => (pyStr (ws.cell r col).value).length)).foldl Nat.max
        ((pyStr (ws.cell 1 col).value).length))
      = (pyStr (ws.cell 1 col).value).length := by
    apply foldl_max_of_zero
    intro x hx
    rcases List.mem_map.mp hx with ⟨r, hr, hfx⟩
    rcases mem_rangeFrom.mp hr with ⟨ha, hb⟩
    rcases hblank r ha (by omega) with h | h <;> rw [← hfx, h] <;> rfl
  rw [hz]

theorem claim_c10_amended_blank_columns_witness :
    ((1 : Nat) ≤ 1 ∧ (1 : Nat) ≤ 1) ∧
    (pyStr none = "" ∧ pyStr (some (CellValue.str "")) = "" ∧
     (auto_width wsBlankCol 1 12 50).getWidth 1 =
       some (min (max ((pyStr (wsBlankCol.cell 1 1).value).length + 4) 12) 50)) :=
  ⟨⟨by decide, by decide⟩,
   claim_c10_amended_blank_columns wsBlankCol 1 1 (by decide) (by decide)
     (fun r h2 h7 => by
       have hm : wsBlankCol.maxRow = 2 := rfl
       rw [hm] at h7
       interval_cases r
       right
       rfl)⟩

-- ── The RACI coloring loop as a fold over the position list ─────────────────

theorem nested_foldl_product {α β : Type} (l₁ : List α) (l₂ : List β)
    (g : Sheet → α → β → Sheet) (s : Sheet) :
    l₁.foldl (fun s a => l₂.foldl (fun s b => g s a b) s) s
      = (l₁ ×ˢ l₂).foldl (fun s p => g s p.1 p.2) s := by
  induction l₁ generalizing s with
  | nil => rfl
  | cons a l ih =>
    rw [List.foldl_cons, ih, List.product_cons, List.foldl_append, List.foldl_map]

/-- The color-coding loop of `build_raci_matrix` processes the cells
row-major, as a fold of `raciStep` over the position list. -/
theorem colorRaciCells_eq (ws : Sheet) :
    colorRaciCells ws =
      ((rangeFrom 2 (ws.maxRow + 1)) ×ˢ (rangeFrom 2 (raciHeaders.length + 1))).foldl
        (fun s p => raciStep s p.1 p.2) ws :=
  nested_foldl_product _ _ _ ws

/-- Positions other than those in the fold's list are untouched cells. -/
theorem getIdx_raciFold_not_mem (l : List (Nat × Nat)) (i j : Nat)
    (hl : ∀ p ∈ l, 1 ≤ p.1 ∧ 1 ≤ p.2)
    (hnot : ∀ p ∈ l, ¬(i = p.1 - 1 ∧ j = p.2 - 1)) (s : Sheet) :
    (l.foldl (fun s p => raciStep s p.1 p.2) s).getIdx i j = s.getIdx i j := by
  induction l generalizing s with
  | nil => rfl
  | cons p l ih =>
    rw [List.foldl_cons,
      ih (fun q hq => hl q (List.mem_cons_of_mem _ hq))
        (fun q hq => hnot q (List.mem_cons_of_mem _ hq))]
    show (raciStep s p.1 p.2).getIdx i j = s.getIdx i j
    unfold raciStep
    split
    · rw [getIdx_setCell _ _ _ _ _ _ (hl p (List.mem_cons_self _ _)).1
        (hl p (List.mem_cons_self _ _)).2,
        if_neg (hnot p (List.mem_cons_self _ _))]
    · rfl

theorem value_raciFold (l : List (Nat × Nat)) (i j : Nat)
    (hl : ∀ p ∈ l, 1 ≤ p.1 ∧ 1 ≤ p.2) (s : Sheet) :
    ((l.foldl (fun s p => raciStep s p.1 p.2) s).getIdx i j).value
      = (s.getIdx i j).value := by
  refine foldl_preserve (fun s : Sheet => (s.getIdx i j).value) _ _
    (fun s' p hp => ?_) s
  show ((raciStep s' p.1 p.2).getIdx i j).value = (s'.getIdx i j).value
  unfold raciStep
  split
  · exact value_getIdx_setCell s' p.1 p.2 _ i j (hl p hp).1 (hl p hp).2 (fun cl => rfl)
  · rfl

/-- What one `raciStep` at `(r, c)` does to the cell at `(r, c)`. -/
theorem getIdx_raciStep_self (s : Sheet) (r c : Nat) (hr : 1 ≤ r) (hc : 1 ≤ c) :
    (raciStep s r c).getIdx (r - 1) (c - 1)
      = match raciLookup ((pyStr ((s.getIdx (r - 1) (c - 1)).value)).trim) with
        | some fl => { s.getIdx (r - 1) (c - 1) with fill := some fl, alignment := some CENTER_ALIGN }
        | none => s.getIdx (r - 1) (c - 1) := by
  unfold raciStep Sheet.cell
  cases hlk : raciLookup ((pyStr ((s.getIdx (r - 1) (c - 1)).value)).trim) with
  | none => rfl
  | some fl => rw [getIdx_setCell _ _ _ _ _ _ hr hc, if_pos ⟨rfl, rfl⟩]

/-- The effect of the fold on the one position `(r, c)` it processes once:
exactly the `raciStep` outcome computed from the sheet's original cell. -/
theorem raciFold_split (l₁ l₂ : List (Nat × Nat)) (r c : Nat) (s : Sheet)
    (hr : 1 ≤ r) (hc : 1 ≤ c)
    (hl₁ : ∀ p ∈ l₁, 1 ≤ p.1 ∧ 1 ≤ p.2)
    (hl₂ : ∀ p ∈ l₂, 1 ≤ p.1 ∧ 1 ≤ p.2)
    (hn₁ : ∀ p ∈ l₁, ¬(r - 1 = p.1 - 1 ∧ c - 1 = p.2 - 1))
    (hn₂ : ∀ p ∈ l₂, ¬(r - 1 = p.1 - 1 ∧ c - 1 = p.2 - 1)) :
    ((l₁ ++ (r, c) :: l₂).foldl (fun s p => raciStep s p.1 p.2) s).getIdx (r - 1) (c - 1)
      = match raciLookup ((pyStr ((s.getIdx (r - 1) (c - 1)).value)).trim) with
        | some fl => { s.getIdx (r - 1) (c - 1) with fill := some fl, alignment := some CENTER_ALIGN }
        | none => s.getIdx (r - 1) (c - 1) := by
  rw [List.foldl_append, List.foldl_cons,
    getIdx_raciFold_not_mem l₂ _ _ hl₂ hn₂,
    getIdx_raciStep_self _ r c hr hc,
    getIdx_raciFold_not_mem l₁ _ _ hl₁ hn₁]

/-- C8: the RACI coloring looks each in-range cell's value up after
trimming whitespace; on a hit it assigns the mapped fill and centers the
cell, on a miss it leaves the cell (value and styling) untouched, and in
either case no error is possible. -/
theorem claim_c8_raci_lookup (ws : Sheet) (r c : Nat)
    (h1 : 2 ≤ r) (h2 : r ≤ ws.maxRow) (h3 : 2 ≤ c) (h4 : c ≤ 8) :
    (colorRaciCells ws).cell r c =
      match raciLookup ((pyStr (ws.cell r c).value).trim) with
      | some fl => { ws.cell r c with fill := some fl, alignment := some CENTER_ALIGN }
      | none => ws.cell r c := by
  have hc8 : raciHeaders.length = 8 := rfl
  have hmem : (r, c) ∈ (rangeFrom 2 (ws.maxRow + 1)) ×ˢ
      (rangeFrom 2 (raciHeaders.length + 1)) :=
    List.mem_product.mpr ⟨mem_rangeFrom.mpr ⟨h1, by omega⟩,
      mem_rangeFrom.mpr ⟨h3, by omega⟩⟩
  have hbounds : ∀ p ∈ (rangeFrom 2 (ws.maxRow + 1)) ×ˢ
      (rangeFrom 2 (raciHeaders.length + 1)), 2 ≤ p.1 ∧ 2 ≤ p.2 := by
    intro p hp
    rcases p with ⟨a, b⟩
    rcases List.mem_product.mp hp with ⟨ha, hb⟩
    exact ⟨(mem_rangeFrom.mp ha).1, (mem_rangeFrom.mp hb).1⟩
  have hnd : ((rangeFrom 2 (ws.maxRow + 1)) ×ˢ
      (rangeFrom 2 (raciHeaders.length + 1))).Nodup :=
    (nodup_rangeFrom _ _).product (nodup_rangeFrom _ _)
  rcases List.append_of_mem hmem with ⟨l₁, l₂, hL⟩
  rw [hL] at hnd
  rw [List.nodup_append, List.nodup_cons] at hnd
  have hnotmem1 : (r, c) ∉ l₁ := fun hm => hnd.2.2 hm (List.mem_cons_self _ _)
  have hnotmem2 : (r, c) ∉ l₂ := hnd.2.1.1
  have hl₁ : ∀ p ∈ l₁, 1 ≤ p.1 ∧ 1 ≤ p.2 := by
    intro p hp
    have hb := hbounds p (by rw [hL]; exact List.mem_append_left _ hp)
    exact ⟨by omega, by omega⟩
  have hl₂ : ∀ p ∈ l₂, 1 ≤ p.1 ∧ 1 ≤ p.2 := by
    intro p hp
    have hb := hbounds p
      (by rw [hL]; exact List.mem_append_right _ (List.mem_cons_of_mem _ hp))
    exact ⟨by omega, by omega⟩
  have hn₁ : ∀ p ∈ l₁, ¬(r - 1 = p.1 - 1 ∧ c - 1 = p.2 - 1) := by
    intro p hp heq
    have hb := hbounds p (by rw [hL]; exact List.mem_append_left _ hp)
    have hpe : p = (r, c) := by
      rcases p with ⟨a, b⟩
      rcases heq with ⟨e1, e2⟩
      simp only at hb e1 e2
      have : a = r := by omega
      have : b = c := by omega
      subst this
      simp only [Prod.mk.injEq, and_true]
      omega
    exact hnotmem1 (hpe ▸ hp)
  have hn₂ : ∀ p ∈ l₂, ¬(r - 1 = p.1 - 1 ∧ c - 1 = p.2 - 1) := by
    intro p hp heq
    have hb := hbounds p
      (by rw [hL]; exact List.mem_append_right _ (List.mem_cons_of_mem _ hp))
    have hpe : p = (r, c) := by
      rcases p with ⟨a, b⟩
      rcases heq with ⟨e1, e2⟩
      simp only at hb e1 e2
      have : a = r := by omega
      have : b = c := by omega
      subst this
      simp only [Prod.mk.injEq, and_true]
      omega
    exact hnotmem2 (hpe ▸ hp)
  unfold Sheet.cell
  rw [colorRaciCells_eq, hL]
  exact raciFold_split l₁ l₂ r c ws (by omega) (by omega) hl₁ hl₂ hn₁ hn₂

theorem claim_c8_raci_lookup_witness :
    ((2 : Nat) ≤ 2 ∧ 2 ≤ wsRaci.maxRow ∧ (2 : Nat) ≤ 2 ∧ (2 : Nat) ≤ 8) ∧
    (colorRaciCells wsRaci).cell 2 2 =
      (match raciLookup ((pyStr (wsRaci.cell 2 2).value).trim) with
       | some fl => { wsRaci.cell 2 2 with fill := some fl, alignment := some CENTER_ALIGN }
       | none => wsRaci.cell 2 2) :=
  ⟨⟨by decide, by decide, by decide, by decide⟩,
   claim_c8_raci_lookup wsRaci 2 2 (by decide) (by decide) (by decide) (by decide)⟩

/-- C9: the RACI coloring only ever touches cells in rows ≥ 2 and columns
2..8; the header row (row 1) and the Task/Activity column (column 1) are
returned exactly as they were, whatever their content. -/
theorem claim_c9_raci_header_frame (ws : Sheet) (r c : Nat)
    (_hr : 1 ≤ r) (_hc : 1 ≤ c) (h : r = 1 ∨ c = 1) :
    (colorRaciCells ws).cell r c = ws.cell r c := by
  unfold Sheet.cell
  rw [colorRaciCells_eq]
  apply getIdx_raciFold_not_mem
  · intro p hp
    rcases p with ⟨a, b⟩
    rcases List.mem_product.mp hp with ⟨ha, hb⟩
    have h2a := (mem_rangeFrom.mp ha).1
    have h2b := (mem_rangeFrom.mp hb).1
    exact ⟨by omega, by omega⟩
  · intro p hp
    rcases p with ⟨a, b⟩
    rcases List.mem_product.mp hp with ⟨ha, hb⟩
    have h2a := (mem_rangeFrom.mp ha).1
    have h2b := (mem_rangeFrom.mp hb).1
    rintro ⟨e1, e2⟩
    simp only at h2a h2b e1 e2
    rcases h with h | h <;> omega

theorem claim_c9_raci_header_frame_witness :
    ((1 : Nat) ≤ 1 ∧ (1 : Nat) ≤ 1 ∧ ((1 : Nat) = 1 ∨ (1 : Nat) = 1)) ∧
    (colorRaciCells wsRaci).cell 1 1 = wsRaci.cell 1 1 :=
  ⟨⟨le_refl 1, le_refl 1, Or.inl rfl⟩,
   claim_c9_raci_header_frame wsRaci 1 1 (le_refl 1) (le_refl 1) (Or.inl rfl)⟩

-- ── Widths of the generated workbook (C4 machinery) ─────────────────────────

theorem getWidth_congr {s s' : Sheet} (h : s.widths = s'.widths) (c : Nat) :
    s.getWidth c = s'.getWidth c := by
  unfold Sheet.getWidth
  rw [h]

theorem maxRow_centerStatusColumn (ws : Sheet) :
    (centerStatusColumn ws).maxRow = ws.maxRow := by
  unfold centerStatusColumn
  refine foldl_inv (fun s : Sheet => s.maxRow = ws.maxRow) _ _ (fun s r hr hs => ?_) ws rfl
  simp only
  rw [maxRow_setCell_le]
  · exact hs
  · rw [hs]
    have := (mem_rangeFrom.mp hr).2
    omega

theorem maxRow_colorRaciCells (ws : Sheet) :
    (colorRaciCells ws).maxRow = ws.maxRow := by
  unfold colorRaciCells
  refine foldl_inv (fun s : Sheet => s.maxRow = ws.maxRow) _ _ (fun s r hr hs => ?_) ws rfl
  refine foldl_inv (fun s : Sheet => s.maxRow = ws.maxRow) _ _ (fun s' c hc hs' => ?_) s hs
  simp only
  split
  · rw [maxRow_setCell_le]
    · exact hs'
    · rw [hs']
      have := (mem_rangeFrom.mp hr).2
      omega
  · exact hs'

theorem colBest_congr (s s' : Sheet) (col : Nat)
    (hmax : s.maxRow = s'.maxRow)
    (hval : ∀ r c, (s.cell r c).value = (s'.cell r c).value) :
    colBest s col = colBest s' col := by
  unfold colBest
  simp only [hval, hmax]

/-- Shared argument for the six sheets: after the builder's styling core
(`auto_width ∘ style_data_rows ∘ style_header_row`) and any remaining
width-, value- and row-count-preserving trailing operations, every column
`1..n` has the assigned width `min(max(colBest, 12), 50)` read off the
finished sheet, hence at least that clamped best-fit. -/
theorem width_ge_colBest_aux (F : Sheet) (n : Nat) (post : Sheet → Sheet)
    (hpostW : ∀ s c, (post s).getWidth c = s.getWidth c)
    (hpostV : ∀ s i j, ((post s).getIdx i j).value = (s.getIdx i j).value)
    (hpostM : ∀ s, (post s).maxRow = s.maxRow)
    (col : Nat) (h1 : 1 ≤ col) (h2 : col ≤ n) :
    ∃ w, (post (auto_width (style_data_rows (style_header_row F n) 2
        (style_header_row F n).maxRow n true) n 12 50)).getWidth col = some w ∧
      w ≥ min (max (colBest (post (auto_width (style_data_rows
        (style_header_row F n) 2 (style_header_row F n).maxRow n true) n 12 50)) col)
        12) 50 := by
  have hgw : (post (auto_width (style_data_rows (style_header_row F n) 2
      (style_header_row F n).maxRow n true) n 12 50)).getWidth col
      = some (min (max (colBest (style_data_rows (style_header_row F n) 2
        (style_header_row F n).maxRow n true) col) 12) 50) := by
    rw [hpostW, getWidth_auto_width_all _ 12 50 n col h1 h2]
    unfold colBest
    rw [foldl_max_init]
  have hm : (post (auto_width (style_data_rows (style_header_row F n) 2
      (style_header_row F n).maxRow n true) n 12 50)).maxRow
      = (style_data_rows (style_header_row F n) 2
        (style_header_row F n).maxRow n true).maxRow := by
    rw [hpostM]
    unfold Sheet.maxRow
    rw [rows_auto_width]
  have hv : ∀ r c, ((post (auto_width (style_data_rows (style_header_row F n) 2
      (style_header_row F n).maxRow n true) n 12 50)).cell r c).value
      = ((style_data_rows (style_header_row F n) 2
        (style_header_row F n).maxRow n true).cell r c).value := by
    intro r c
    unfold Sheet.cell
    rw [hpostV]
    unfold Sheet.getIdx
    rw [rows_auto_width]
  have hcb := colBest_congr _ _ col hm hv
  refine ⟨_, hgw, ?_⟩
  rw [hcb]

/-- C4: in the generated workbook, every column of every sheet has an
assigned width, and that width is at least `max(header length, longest cell
text in the column) + 4` clamped to `[12, 50]`, measured on the finished
sheet. -/
theorem claim_c4_generated_widths (t i col : Nat) (hi : i < 6) (h1 : 1 ≤ col)
    (h2 : col ≤ [14, 12, 10, 8, 10, 9].getD i 0) :
    ∃ w, ((main t).sheets.getD i (Sheet.empty "")).getWidth col = some w ∧
      w ≥ min (max (colBest ((main t).sheets.getD i (Sheet.empty "")) col) 12) 50 := by
  interval_cases i
  all_goals simp only [main_sheets, List.getD_cons_zero, List.getD_cons_succ] at h2 ⊢
  · simp only [inventoryBuilt]
    exact width_ge_colBest_aux (inventoryFilled (Sheet.empty "Sheet"))
      inventoryHeaders.length
      (fun s => (s.setFilter
        ("A1:" ++ get_column_letter inventoryHeaders.length ++ toString s.maxRow)).setFreeze "A2")
      (fun s c => rfl) (fun s i j => rfl) (fun s => rfl) col h1 h2
  · simp only [phasesBuilt]
    exact width_ge_colBest_aux (phasesFilled t (Sheet.empty "Migration Phases"))
      phasesHeaders.length
      (fun s => centerStatusColumn (s.setFreeze "A2"))
      (fun s c => (getWidth_congr (widths_centerStatusColumn _) c).trans rfl)
      (fun s i j => (value_centerStatusColumn _ i j).trans rfl)
      (fun s => (maxRow_centerStatusColumn _).trans rfl) col h1 h2
  · simp only [riskBuilt]
    exact width_ge_colBest_aux (riskFilled (Sheet.empty "Risk Register"))
      riskHeaders.length
      (fun s => (s.setFilter
        ("A1:" ++ get_column_letter riskHeaders.length ++ toString s.maxRow)).setFreeze "A2")
      (fun s c => rfl) (fun s i j => rfl) (fun s => rfl) col h1 h2
  · simp only [raciBuilt]
    exact width_ge_colBest_aux (raciFilled (Sheet.empty "RACI Matrix"))
      raciHeaders.length
      (fun s => colorRaciCells (s.setFreeze "B2"))
      (fun s c => (getWidth_congr (widths_colorRaciCells _) c).trans rfl)
      (fun s i j => (value_colorRaciCells _ i j).trans rfl)
      (fun s => (maxRow_colorRaciCells _).trans rfl) col h1 h2
  · simp only [issueBuilt]
    exact width_ge_colBest_aux (issueFilled (Sheet.empty "Issue Tracker"))
      issueHeaders.length
      (fun s => (s.setFilter
        ("A1:" ++ get_column_letter issueHeaders.length ++ toString s.maxRow)).setFreeze "A2")
      (fun s c => rfl) (fun s i j => rfl) (fun s => rfl) col h1 h2
  · simp only [checklistBuilt]
    exact width_ge_colBest_aux (checklistFilled (Sheet.empty "Validation Checklist"))
      checklistHeaders.length
      (fun s => (s.setFilter
        ("A1:" ++ get_column_letter checklistHeaders.length ++ toString s.maxRow)).setFreeze "A2")
      (fun s c => rfl) (fun s i j => rfl) (fun s => rfl) col h1 h2

theorem claim_c4_generated_widths_witness :
    ((0 : Nat) < 6 ∧ (1 : Nat) ≤ 1 ∧
      (1 : Nat) ≤ [14, 12, 10, 8, 10, 9].getD 0 0) ∧
    (∃ w, ((main 1).sheets.getD 0 (Sheet.empty "")).getWidth 1 = some w ∧
      w ≥ min (max (colBest ((main 1).sheets.getD 0 (Sheet.empty "")) 1) 12) 50) :=
  ⟨⟨by decide, by decide, by decide⟩,
   claim_c4_generated_widths 1 0 1 (by decide) (by decide) (by decide)⟩

set_option maxRecDepth 100000 in
theorem claim_c5_phase_dates_witness :
    (0 : Nat) ∈ List.range 6 ∧
    cvDateLE (((main 3).sheets.getD 1 (Sheet.empty "")).vAt (0 + 2) 5)
      (((main 3).sheets.getD 1 (Sheet.empty "")).vAt (0 + 2) 6) :=
  ⟨List.mem_range.mpr (by omega),
   (claim_c5_phase_dates 3).2.2.2 0 (List.mem_range.mpr (by omega))⟩
